import Mathlib

/-!
Verification of the AI customer-support copilot's draft-generation pipeline.

This file shallowly embeds the pure computational core of the repository:

* the multi-factor confidence scoring system (`src/contexts/AuthContext.tsx`,
  confidence section): `calculateConfidence` and its helper factors;
* the fallback decision logic (`src/lib/ai/fallback.ts`): `shouldUseFallback`,
  `getFallbackReason`, `generateFallbackResponse`;
* the draft-generation orchestration (`src/lib/ai/generate-draft.ts`),
  with the effectful retrieval/completion steps modelled as explicit inputs;
* RAG context assembly (`assembleContext` and its section formatters);
* input sanitization with prompt-injection regexes (`sanitizeInput`,
  `detectPromptInjection`, `calculateRiskLevel`, `shouldBlockInput`);
* PII detection and redaction (`detectPII`, `redactPII`, `redactForLogging`),
  including a small backtracking regex matcher mirroring JavaScript
  `RegExp.prototype.exec` semantics for the concrete patterns used.

JavaScript numbers are modelled as rationals (`ℚ`), string lengths and counts
as naturals, strings as `String`/`List Char`.
-/

attribute [local semireducible] Rat.add Rat.mul Rat.sub Rat.inv Rat.ofScientific

namespace CoPilot

/-! ### Confidence scoring (src/contexts/AuthContext.tsx) -/

/-- `CONFIDENCE_WEIGHTS.SOURCE_RELEVANCE` -/
def SOURCE_RELEVANCE_WEIGHT : ℚ := 0.4

/-- `CONFIDENCE_WEIGHTS.SOURCE_COVERAGE` -/
def SOURCE_COVERAGE_WEIGHT : ℚ := 0.25

/-- `CONFIDENCE_WEIGHTS.QUERY_CLARITY` -/
def QUERY_CLARITY_WEIGHT : ℚ := 0.15

/-- `CONFIDENCE_WEIGHTS.CONTEXT_MATCH` -/
def CONTEXT_MATCH_WEIGHT : ℚ := 0.2

/-- `CONFIDENCE_THRESHOLDS.HIGH` -/
def HIGH_THRESHOLD : ℚ := 0.75

/-- `CONFIDENCE_THRESHOLDS.MEDIUM` -/
def MEDIUM_THRESHOLD : ℚ := 0.5

/-- `FULL_COVERAGE_SOURCE_COUNT` -/
def FULL_COVERAGE_SOURCE_COUNT : ℕ := 5

/-- `TOP_SOURCES_COUNT` -/
def TOP_SOURCES_COUNT : ℕ := 3

/-- One entry of the `sources: Array<{ similarity: number }>` input. -/
structure SimSource where
  similarity : ℚ
deriving DecidableEq, Repr

/-- `ConfidenceFactors` -/
structure ConfidenceFactors where
  sourceRelevance : ℚ
  sourceCoverage : ℚ
  queryClarity : ℚ
  contextMatch : ℚ
deriving DecidableEq, Repr

/-- The `"high" | "medium" | "low"` confidence level. -/
inductive ConfidenceLevel where
  | high
  | medium
  | low
deriving DecidableEq, Repr

/-- `ConfidenceParams` -/
structure ConfidenceParams where
  sources : List SimSource
  queryLength : ℕ
  kbMatchCount : ℕ
  ticketMatchCount : ℕ
deriving DecidableEq, Repr

/-- `ConfidenceResult` -/
structure ConfidenceResult where
  score : ℚ
  factors : ConfidenceFactors
  level : ConfidenceLevel
  explanation : String
deriving DecidableEq, Repr

/-- `Math.max(0, Math.min(1, x))`, the clamp used throughout the scorer. -/
def clamp01 (x : ℚ) : ℚ := max 0 (min 1 x)

/-- Descending-by-similarity comparison used by
`[...sources].sort((a, b) => b.similarity - a.similarity)`. -/
def simGE (a b : SimSource) : Prop := b.similarity ≤ a.similarity

instance : DecidableRel simGE := fun a b => inferInstanceAs (Decidable (_ ≤ _))

instance : IsTotal SimSource simGE := ⟨fun a b => le_total b.similarity a.similarity⟩

instance : IsTrans SimSource simGE := ⟨fun _ _ _ h h' => le_trans h' h⟩

/-- `calculateSourceRelevance`: average similarity of the top
`TOP_SOURCES_COUNT` sources, clamped to `[0, 1]`; `0` for no sources. -/
def calculateSourceRelevance (sources : List SimSource) : ℚ :=
  if sources.isEmpty then 0
  else
    let sortedSources := (List.insertionSort simGE sources).take TOP_SOURCES_COUNT
    let totalSimilarity := sortedSources.foldl (fun sum s => sum + s.similarity) 0
    let averageSimilarity := totalSimilarity / (sortedSources.length : ℚ)
    max 0 (min 1 averageSimilarity)

/-- `calculateSourceCoverage`: linear in the total source count up to
`FULL_COVERAGE_SOURCE_COUNT`, capped at `1`; `0` for no sources. -/
def calculateSourceCoverage (kbMatchCount ticketMatchCount : ℕ) : ℚ :=
  let totalSources := kbMatchCount + ticketMatchCount
  if totalSources = 0 then 0
  else min 1 ((totalSources : ℚ) / (FULL_COVERAGE_SOURCE_COUNT : ℚ))

/-- `calculateQueryClarity`: piecewise clarity score of the query length
(the `queryLength <= 0` guard of the source collapses to `= 0` on `ℕ`). -/
def calculateQueryClarity (queryLength : ℕ) : ℚ :=
  if queryLength = 0 then 0
  else if queryLength < 10 then
    0.2 + ((queryLength : ℚ) / 10) * 0.2
  else if queryLength < 20 then
    0.4 + (((queryLength : ℚ) - 10) / (20 - 10)) * 0.3
  else if queryLength ≤ 200 then
    0.85 + (1 - |(queryLength : ℚ) - (20 + 200) / 2| / ((200 - 20) / 2)) * 0.15
  else if queryLength ≤ 500 then
    0.85 - (((queryLength : ℚ) - 200) / (500 - 200)) * 0.25
  else
    max 0.4 (0.6 - min 0.2 (((queryLength : ℚ) - 500) / 1000 * 0.2))

/-- `calculateContextMatch`: the highest similarity among all sources
(`Math.max(...)`), clamped to `[0, 1]`; `0` for no sources. -/
def calculateContextMatch (sources : List SimSource) : ℚ :=
  match sources with
  | [] => 0
  | s :: rest =>
    let maxSimilarity := rest.foldl (fun m t => max m t.similarity) s.similarity
    max 0 (min 1 maxSimilarity)

/-- `calculateFactors` -/
def calculateFactors (sources : List SimSource)
    (queryLength kbMatchCount ticketMatchCount : ℕ) : ConfidenceFactors :=
  { sourceRelevance := calculateSourceRelevance sources
    sourceCoverage := calculateSourceCoverage kbMatchCount ticketMatchCount
    queryClarity := calculateQueryClarity queryLength
    contextMatch := calculateContextMatch sources }

/-- `calculateWeightedScore` -/
def calculateWeightedScore (factors : ConfidenceFactors) : ℚ :=
  max 0 (min 1
    (factors.sourceRelevance * SOURCE_RELEVANCE_WEIGHT +
     factors.sourceCoverage * SOURCE_COVERAGE_WEIGHT +
     factors.queryClarity * QUERY_CLARITY_WEIGHT +
     factors.contextMatch * CONTEXT_MATCH_WEIGHT))

/-- `getConfidenceLevel` -/
def getConfidenceLevel (score : ℚ) : ConfidenceLevel :=
  if score ≥ HIGH_THRESHOLD then .high
  else if score ≥ MEDIUM_THRESHOLD then .medium
  else .low

/-- `getConfidenceExplanation` -/
def getConfidenceExplanation (factors : ConfidenceFactors)
    (level : ConfidenceLevel) : String :=
  let explanations : List String :=
    match level with
    | .high =>
      ["High confidence:"] ++
      (if factors.sourceRelevance ≥ 0.7 then ["Strong matches found in knowledge base."] else []) ++
      (if factors.sourceCoverage ≥ 0.6 then ["Multiple relevant sources identified."] else []) ++
      (if factors.contextMatch ≥ 0.8 then ["Excellent context match for this query."] else [])
    | .medium =>
      ["Medium confidence:"] ++
      (if factors.sourceRelevance ≥ 0.5 then ["Partial matches found in sources."]
       else ["Limited source relevance."]) ++
      (if factors.sourceCoverage < 0.4 then ["Few sources available."] else []) ++
      (if factors.queryClarity < 0.5 then ["Query could be more specific."] else [])
    | .low =>
      ["Low confidence:"] ++
      (if factors.sourceRelevance < 0.3 then ["No highly relevant sources found."] else []) ++
      (if factors.sourceCoverage = 0 then ["Response based on general knowledge only."] else []) ++
      (if factors.contextMatch < 0.3 then ["Context may not fully address the query."] else []) ++
      (if factors.queryClarity < 0.3 then ["Query is unclear or too brief."] else [])
  let explanations :=
    if level = .low then explanations ++ ["Manual review recommended."] else explanations
  String.intercalate " " explanations

/-- `calculateConfidence`, the main entry point of the confidence scorer. -/
def calculateConfidence (params : ConfidenceParams) : ConfidenceResult :=
  let factors := calculateFactors params.sources params.queryLength
    params.kbMatchCount params.ticketMatchCount
  let score := calculateWeightedScore factors
  let level := getConfidenceLevel score
  let explanation := getConfidenceExplanation factors level
  { score := score, factors := factors, level := level, explanation := explanation }

/-- `shouldFlagForReview` -/
def shouldFlagForReview (result : ConfidenceResult) : Bool :=
  if result.level = .low then true
  else if result.factors.sourceCoverage = 0 then true
  else if result.factors.queryClarity < 0.3 then true
  else false

/-! ### Fallback handling (src/lib/ai/fallback.ts) -/

/-- `FallbackReason` -/
inductive FallbackReason where
  | no_sources
  | low_similarity
  | unclear_query
  | generation_error
deriving DecidableEq, Repr

/-- `FALLBACK_THRESHOLDS.MIN_CONFIDENCE_WITH_SOURCES` -/
def MIN_CONFIDENCE_WITH_SOURCES : ℚ := 0.4

/-- `FALLBACK_THRESHOLDS.MIN_CONFIDENCE_ABSOLUTE` -/
def MIN_CONFIDENCE_ABSOLUTE : ℚ := 0.3

/-- `FALLBACK_THRESHOLDS.MIN_QUERY_LENGTH` -/
def MIN_QUERY_LENGTH : ℕ := 10

/-- `FALLBACK_THRESHOLDS.MAX_QUERY_LENGTH` -/
def MAX_QUERY_LENGTH : ℕ := 1000

/-- `shouldUseFallback` -/
def shouldUseFallback (confidenceScore : ℚ) (sourcesCount : ℕ) : Bool :=
  if confidenceScore < MIN_CONFIDENCE_ABSOLUTE then true
  else if confidenceScore < MIN_CONFIDENCE_WITH_SOURCES ∧ sourcesCount = 0 then true
  else false

/-- `getFallbackReason` -/
def getFallbackReason (confidenceScore : ℚ) (sourcesCount queryLength : ℕ) :
    FallbackReason :=
  if queryLength < MIN_QUERY_LENGTH ∨ queryLength > MAX_QUERY_LENGTH then .unclear_query
  else if sourcesCount = 0 then .no_sources
  else if sourcesCount > 0 ∧ confidenceScore < 0.4 then .low_similarity
  else .generation_error

/-- Contents of `FALLBACK_TEMPLATES` (content and suggested actions). -/
def FALLBACK_TEMPLATES (reason : FallbackReason) : String × List String :=
  match reason with
  | .no_sources =>
    ("Thank you for reaching out. I want to make sure I give you accurate information. " ++
     "Let me look into this further and get back to you shortly, or I'll connect you " ++
     "with a team member who can help with your specific question.",
     ["Escalate to senior agent", "Search for more context",
      "Request clarification from customer"])
  | .low_similarity =>
    ("Thank you for contacting us. I found some related information, but I want to " ++
     "make sure I address your specific situation correctly. Could you provide a bit " ++
     "more detail about your question, or I can connect you with a specialist?",
     ["Request more details", "Escalate to specialist", "Review similar cases manually"])
  | .unclear_query =>
    ("Thank you for reaching out. To help you better, could you provide more details " ++
     "about your question or issue? Specifically, it would help to know what product " ++
     "or service you're asking about, what you were trying to do, and any error " ++
     "messages you may have received.",
     ["Request clarification", "Send FAQ links", "Offer callback"])
  | .generation_error =>
    ("Thank you for your patience. I'm having trouble processing your request right now. " ++
     "A team member will review your inquiry and respond shortly.",
     ["Manual review required", "Escalate immediately"])

/-- `FallbackResponse` -/
structure FallbackResponse where
  content : String
  isFallback : Bool
  reason : FallbackReason
  suggestedActions : List String
deriving DecidableEq, Repr

/-- `generateFallbackResponse` -/
def generateFallbackResponse (reason : FallbackReason) (_customerMessage : String) :
    FallbackResponse :=
  let template := FALLBACK_TEMPLATES reason
  { content := template.1
    isFallback := true
    reason := reason
    suggestedActions := template.2 }

/-- `generateErrorFallback` (the error argument is only logged in the source). -/
def generateErrorFallback (_error : String) (customerMessage : String) :
    FallbackResponse :=
  generateFallbackResponse .generation_error customerMessage

/-! ### RAG context assembly (src/lib/rag, `assembleContext`) -/

/-- The `"kb" | "ticket"` source discriminator. -/
inductive SourceType where
  | kb
  | ticket
deriving DecidableEq, Repr

/-- `SourceReference` -/
structure SourceReference where
  type : SourceType
  id : String
  title : String
  similarity : ℚ
deriving DecidableEq, Repr

/-- One entry of `RetrievedContext.kbArticles`. -/
structure KbArticle where
  id : String
  title : String
  content : String
  similarity : ℚ
deriving DecidableEq, Repr

/-- `TicketMessage` (the fields used by the assembler). -/
structure TicketMessage where
  author_type : String
  body : String
  is_public : Bool
deriving DecidableEq, Repr

/-- `SimilarTicketContext` -/
structure SimilarTicketContext where
  id : String
  subject : String
  messages : List TicketMessage
  resolution : Option String
  similarity : ℚ
deriving DecidableEq, Repr

/-- `RetrievedContext` -/
structure RetrievedContext where
  kbArticles : List KbArticle
  similarTickets : List SimilarTicketContext
  totalSources : ℕ
deriving DecidableEq, Repr

/-- `AssembledContext` -/
structure AssembledContext where
  systemContext : String
  sources : List SourceReference
  hasContext : Bool
deriving DecidableEq, Repr

/-- `ContextAssemblyOptions` with the source's defaults
(`DEFAULT_MAX_KB_ARTICLES = 3`, `DEFAULT_MAX_TICKETS = 2`,
`DEFAULT_MAX_CONTEXT_LENGTH = 4000`). -/
structure ContextAssemblyOptions where
  maxKbArticles : ℕ := 3
  maxTickets : ℕ := 2
  maxContextLength : ℤ := 4000
deriving DecidableEq, Repr

/-- `truncateContent`: truncate to `maxLength` with a `"..."` suffix
(JavaScript `substring(0, maxLength - 3)` clamps at zero, as `ℕ`
subtraction does). -/
def truncateContent (content : String) (maxLength : ℕ) : String :=
  if content.length ≤ maxLength then content
  else (content.take (maxLength - 3)) ++ "..."

/-- Descending-by-similarity comparison for KB articles,
`sort((a, b) => b.similarity - a.similarity)`. -/
def kbSimGE (a b : KbArticle) : Prop := b.similarity ≤ a.similarity

instance : DecidableRel kbSimGE := fun a b => inferInstanceAs (Decidable (_ ≤ _))

instance : IsTotal KbArticle kbSimGE := ⟨fun a b => le_total b.similarity a.similarity⟩

instance : IsTrans KbArticle kbSimGE := ⟨fun _ _ _ h h' => le_trans h' h⟩

/-- Descending-by-similarity comparison for similar tickets. -/
def ticketSimGE (a b : SimilarTicketContext) : Prop := b.similarity ≤ a.similarity

instance : DecidableRel ticketSimGE := fun a b => inferInstanceAs (Decidable (_ ≤ _))

instance : IsTotal SimilarTicketContext ticketSimGE :=
  ⟨fun a b => le_total b.similarity a.similarity⟩

instance : IsTrans SimilarTicketContext ticketSimGE := ⟨fun _ _ _ h h' => le_trans h' h⟩

/-- The descending-similarity relation on assembled source references. -/
def refSimGE (a b : SourceReference) : Prop := b.similarity ≤ a.similarity

instance : DecidableRel refSimGE := fun a b => inferInstanceAs (Decidable (_ ≤ _))

/-- The `SourceReference` pushed for a KB article in `formatKBSection`. -/
def kbRef (article : KbArticle) : SourceReference :=
  { type := .kb, id := article.id, title := article.title,
    similarity := article.similarity }

/-- The `SourceReference` pushed for a ticket in `formatTicketSection`. -/
def ticketRef (ticket : SimilarTicketContext) : SourceReference :=
  { type := .ticket, id := ticket.id, title := ticket.subject,
    similarity := ticket.similarity }

/-- The article loop of `formatKBSection`: pushes a header line, a content
line and a source per article, breaking (for `i > 0`) once the running
length would exceed `maxLength`. -/
def kbGo (maxLength : ℤ) : List KbArticle → ℕ → ℤ → List String × List SourceReference
  | [], _, _ => ([], [])
  | article :: rest, i, currentLength =>
    let header := "\n\n[Article " ++ toString (i + 1) ++ ": " ++ article.title ++ "]"
    let content := "\n" ++ truncateContent article.content 800
    let sectionLength : ℤ := (header.length : ℤ) + (content.length : ℤ)
    if currentLength + sectionLength > maxLength ∧ i > 0 then ([], [])
    else
      let rec' := kbGo maxLength rest (i + 1) (currentLength + sectionLength)
      (header :: content :: rec'.1, kbRef article :: rec'.2)

/-- `formatKBSection` -/
def formatKBSection (articles : List KbArticle) (maxLength : ℤ) :
    String × List SourceReference :=
  let go := kbGo maxLength articles 0 (("KNOWLEDGE BASE:" : String).length : ℤ)
  (if go.2.isEmpty then "" else String.join ("KNOWLEDGE BASE:" :: go.1), go.2)

/-- The ticket loop of `formatTicketSection`. The customer message is the
first customer-authored body (`customerMessages[0]?.body ||` default, so an
empty body also falls back), and a falsy (`null` or empty) resolution prints
the "No resolution recorded" line. -/
def ticketGo (maxLength : ℤ) :
    List SimilarTicketContext → ℕ → ℤ → List String × List SourceReference
  | [], _, _ => ([], [])
  | ticket :: rest, i, currentLength =>
    let customerMessages := ticket.messages.filter (fun m => m.author_type = "customer")
    let customerMessage :=
      match customerMessages.head? with
      | some m => if m.body = "" then "No customer message available" else m.body
      | none => "No customer message available"
    let header := "\n\n[Ticket " ++ toString (i + 1) ++ ": " ++ ticket.subject ++ "]"
    let customerPart := "\nCustomer: " ++ truncateContent customerMessage 300
    let resolutionPart :=
      match ticket.resolution with
      | some r =>
        if r = "" then "\nResolution: No resolution recorded"
        else "\nResolution: " ++ truncateContent r 500
      | none => "\nResolution: No resolution recorded"
    let sectionLength : ℤ :=
      (header.length : ℤ) + (customerPart.length : ℤ) + (resolutionPart.length : ℤ)
    if currentLength + sectionLength > maxLength ∧ i > 0 then ([], [])
    else
      let rec' := ticketGo maxLength rest (i + 1) (currentLength + sectionLength)
      (header :: customerPart :: resolutionPart :: rec'.1, ticketRef ticket :: rec'.2)

/-- `formatTicketSection` -/
def formatTicketSection (tickets : List SimilarTicketContext) (maxLength : ℤ) :
    String × List SourceReference :=
  let go := ticketGo maxLength tickets 0 (("SIMILAR RESOLVED TICKETS:" : String).length : ℤ)
  (if go.2.isEmpty then "" else String.join ("SIMILAR RESOLVED TICKETS:" :: go.1), go.2)

/-- The canonical no-context sentinel of `assembleContext`. -/
def NO_CONTEXT_TEXT : String :=
  "No relevant knowledge base articles or similar tickets found. " ++
  "Please provide a helpful response based on general customer service best practices."

/-- The KB half of `assembleContext`'s body: the pushed context part (if
any), the pushed sources, and the resulting `currentLength` (which starts
at `0`). -/
def assembleKbStep (sortedArticles : List KbArticle) (maxContextLength : ℤ) :
    List String × List SourceReference × ℤ :=
  if sortedArticles.length > 0 then
    let kbSection := formatKBSection sortedArticles (maxContextLength - 0)
    if kbSection.1 ≠ "" then
      ([kbSection.1], kbSection.2, (kbSection.1.length : ℤ))
    else ([], [], 0)
  else ([], [], 0)

/-- The ticket half of `assembleContext`'s body, guarded by
`currentLength < maxContextLength`. -/
def assembleTicketStep (sortedTickets : List SimilarTicketContext)
    (maxContextLength currentLength : ℤ) : List String × List SourceReference :=
  if sortedTickets.length > 0 ∧ currentLength < maxContextLength then
    let ticketSection := formatTicketSection sortedTickets
      (maxContextLength - currentLength)
    if ticketSection.1 ≠ "" then ([ticketSection.1], ticketSection.2)
    else ([], [])
  else ([], [])

/-- `assembleContext` -/
def assembleContext (retrieved : RetrievedContext)
    (options : ContextAssemblyOptions := {}) : AssembledContext :=
  let sortedArticles :=
    (List.insertionSort kbSimGE retrieved.kbArticles).take options.maxKbArticles
  let sortedTickets :=
    (List.insertionSort ticketSimGE retrieved.similarTickets).take options.maxTickets
  let kbStep := assembleKbStep sortedArticles options.maxContextLength
  let ticketStep := assembleTicketStep sortedTickets options.maxContextLength kbStep.2.2
  let contextParts := kbStep.1 ++ ticketStep.1
  let sources := kbStep.2.1 ++ ticketStep.2
  if contextParts.isEmpty then
    { systemContext := NO_CONTEXT_TEXT, sources := [], hasContext := false }
  else
    { systemContext := String.intercalate "\n\n" contextParts,
      sources := sources, hasContext := true }

/-! ### Draft generation (src/lib/ai/generate-draft.ts)

`generateDraft` is `async`: its two effectful steps — RAG retrieval
(`buildFullContext`) and the LLM call (`generateCompletion`) — are modelled
as explicit inputs: the retrieved `AssembledContext`, and the completion
outcome as an `Except` (an exception thrown by the provider is `.error`).
The wall-clock `generationTimeMs` field is omitted (not a function of the
inputs); all other fields of the source's `DraftOutput` are embedded. -/

/-- Result of `generateCompletion` (the fields `generateDraft` reads). -/
structure CompletionResult where
  content : String
  model : String
  promptTokens : ℕ
  completionTokens : ℕ
  totalTokens : ℕ
deriving DecidableEq, Repr

/-- `DraftMetadata.tokenUsage` -/
structure TokenUsage where
  prompt : ℕ
  completion : ℕ
  total : ℕ
deriving DecidableEq, Repr

/-- `DraftMetadata` (without the wall-clock `generationTimeMs`). -/
structure DraftMetadata where
  model : String
  retrievedKbCount : ℕ
  retrievedTicketCount : ℕ
  tokenUsage : Option TokenUsage
  confidenceFactors : Option ConfidenceFactors
deriving DecidableEq, Repr

/-- `DraftOutput`; the trailing optional fields of the source are `Option`s. -/
structure DraftOutput where
  content : String
  confidenceScore : ℚ
  confidenceLevel : ConfidenceLevel
  confidenceExplanation : String
  needsReview : Bool
  sources : List SourceReference
  metadata : DraftMetadata
  isFallback : Option Bool
  fallbackReason : Option FallbackReason
  suggestedActions : Option (List String)
deriving DecidableEq, Repr

/-- The KB sources of the retrieved context
(`context.sources.filter(s => s.type === "kb")`). -/
def draftKbSources (context : AssembledContext) : List SourceReference :=
  context.sources.filter (fun s => s.type == SourceType.kb)

/-- The ticket sources of the retrieved context. -/
def draftTicketSources (context : AssembledContext) : List SourceReference :=
  context.sources.filter (fun s => s.type == SourceType.ticket)

/-- `totalSources = kbSources.length + ticketSources.length` -/
def draftTotalSources (context : AssembledContext) : ℕ :=
  (draftKbSources context).length + (draftTicketSources context).length

/-- Step 2 of `generateDraft`: the preliminary confidence result. -/
def draftConfidence (context : AssembledContext) (customerMessage : String) :
    ConfidenceResult :=
  calculateConfidence
    { sources := context.sources.map (fun s => { similarity := s.similarity })
      queryLength := customerMessage.length
      kbMatchCount := (draftKbSources context).length
      ticketMatchCount := (draftTicketSources context).length }

/-- `generateDraft` (steps 2-6; step 1's retrieval is the `context` input,
step 5's LLM call outcome is the `completion` input). -/
def generateDraft (context : AssembledContext) (customerMessage : String)
    (completion : Except String CompletionResult) : DraftOutput :=
  let confidenceResult := draftConfidence context customerMessage
  if shouldUseFallback confidenceResult.score (draftTotalSources context) then
    let fallbackReason := getFallbackReason confidenceResult.score
      (draftTotalSources context) customerMessage.length
    let fallbackResponse := generateFallbackResponse fallbackReason customerMessage
    { content := fallbackResponse.content
      confidenceScore := confidenceResult.score
      confidenceLevel := confidenceResult.level
      confidenceExplanation := confidenceResult.explanation
      needsReview := true
      sources := context.sources
      metadata := ⟨"fallback", (draftKbSources context).length,
        (draftTicketSources context).length, none, some confidenceResult.factors⟩
      isFallback := some true
      fallbackReason := some fallbackReason
      suggestedActions := some fallbackResponse.suggestedActions }
  else
    match completion with
    | .error e =>
      let fallbackResponse := generateErrorFallback e customerMessage
      { content := fallbackResponse.content
        confidenceScore := confidenceResult.score
        confidenceLevel := confidenceResult.level
        confidenceExplanation := "Generation failed - using fallback response"
        needsReview := true
        sources := context.sources
        metadata := ⟨"fallback", (draftKbSources context).length,
          (draftTicketSources context).length, none, some confidenceResult.factors⟩
        isFallback := some true
        fallbackReason := some .generation_error
        suggestedActions := some fallbackResponse.suggestedActions }
    | .ok completionResult =>
      { content := completionResult.content
        confidenceScore := confidenceResult.score
        confidenceLevel := confidenceResult.level
        confidenceExplanation := confidenceResult.explanation
        needsReview := shouldFlagForReview confidenceResult ||
          decide (completionResult.content.length < 50)
        sources := context.sources
        metadata := ⟨completionResult.model, (draftKbSources context).length,
          (draftTicketSources context).length,
          some ⟨completionResult.promptTokens, completionResult.completionTokens,
            completionResult.totalTokens⟩,
          some confidenceResult.factors⟩
        isFallback := some false
        fallbackReason := none
        suggestedActions := none }

/-- `needsHumanReview` -/
def needsHumanReview (draft : DraftOutput) : Bool :=
  if draft.needsReview then true
  else if draft.content.length < 50 then true
  else false

/-! ### A small backtracking regex matcher

The sanitization and PII modules are driven by JavaScript regexes. The
matcher below embeds exactly the constructs those concrete patterns use —
character classes, case-insensitive literals, sequencing, ordered
alternation, greedy `?` and greedy counted character-class repetition,
negative lookahead and the word boundary `\b` — with JavaScript's
backtracking priority (leftmost match; alternatives tried left to right;
greedy quantifiers try longer matches first). Each pattern definition below
transcribes one regex literal of the source. -/

/-- JavaScript `\w`: ASCII letters, digits and underscore. -/
def isWordChar (c : Char) : Bool :=
  (97 ≤ c.toNat && c.toNat ≤ 122) || (65 ≤ c.toNat && c.toNat ≤ 90) ||
  (48 ≤ c.toNat && c.toNat ≤ 57) || c.toNat = 95

/-- JavaScript `\s`: space, `\t\n\v\f\r`, NBSP, and the Unicode space
separators (U+1680, U+2000-U+200A, U+2028, U+2029, U+202F, U+205F,
U+3000, U+FEFF). -/
def isJsSpace (c : Char) : Bool :=
  c.toNat = 32 || (9 ≤ c.toNat && c.toNat ≤ 13) || c.toNat = 160 ||
  c.toNat = 0x1680 || (0x2000 ≤ c.toNat && c.toNat ≤ 0x200A) ||
  c.toNat = 0x2028 || c.toNat = 0x2029 || c.toNat = 0x202F ||
  c.toNat = 0x205F || c.toNat = 0x3000 || c.toNat = 0xFEFF

/-- JavaScript `\d`. -/
def isDigitChar (c : Char) : Bool := 48 ≤ c.toNat && c.toNat ≤ 57

/-- ASCII letter (`[a-zA-Z]`). -/
def isAsciiLetter (c : Char) : Bool :=
  (97 ≤ c.toNat && c.toNat ≤ 122) || (65 ≤ c.toNat && c.toNat ≤ 90)

/-- Regex syntax: exactly the constructs used by the source's patterns.
`lit` matches its characters case-insensitively (via `Char.toLower` on
both sides), which is the identity on the case-sensitive patterns since
their literals contain no letters. -/
inductive Rx where
  | cls (p : Char → Bool)
  | lit (cs : List Char)
  | seq (a b : Rx)
  | alt (a b : Rx)
  | opt (a : Rx)
  | repCls (p : Char → Bool) (lo : ℕ) (hi : Option ℕ)
  | nla (a : Rx)
  | wb

/-- The character preceding the current position after consuming `pre`
on top of an outer left context `prev` (for `\b`). -/
def lastCtx (prev : Option Char) : List Char → Option Char
  | [] => prev
  | c :: rest => lastCtx (some c) rest

/-- Case-insensitive literal matching; calls the continuation with the
updated left context and the rest of the input. -/
def litRun (cs : List Char) (prev : Option Char) (s : List Char)
    (k : Option Char → List Char → Option (Option Char × List Char)) :
    Option (Option Char × List Char) :=
  match cs, s with
  | [], _ => k prev s
  | _ :: _, [] => none
  | c :: cs', d :: rest =>
    if d.toLower = c.toLower then litRun cs' (some d) rest k else none

/-- Greedy counted repetition of a character class: consume as many
class characters as allowed, backtracking one at a time when the
continuation fails, failing when fewer than `lo` were consumed. -/
def repRun (p : Char → Bool) (lo : ℕ) (hi : Option ℕ) (prev : Option Char)
    (s : List Char)
    (k : Option Char → List Char → Option (Option Char × List Char)) :
    Option (Option Char × List Char) :=
  match s with
  | [] => if lo = 0 then k prev [] else none
  | c :: rest =>
    if (match hi with | some 0 => false | _ => true) && p c then
      match repRun p (lo - 1) (hi.map (· - 1)) (some c) rest k with
      | some r => some r
      | none => if lo = 0 then k prev s else none
    else if lo = 0 then k prev s else none

/-- The matcher: `mrun rx prev s k` tries to match `rx` at the start of
`s` (with `prev` the character just before `s`, for `\b`), calling the
continuation `k` with the updated context and remaining input on each
candidate parse, in JavaScript's backtracking priority order; the first
continuation success is returned. -/
def mrun : Rx → Option Char → List Char →
    (Option Char → List Char → Option (Option Char × List Char)) →
    Option (Option Char × List Char)
  | .cls p, _, s, k =>
    match s with
    | [] => none
    | c :: rest => if p c then k (some c) rest else none
  | .lit cs, prev, s, k => litRun cs prev s k
  | .seq a b, prev, s, k => mrun a prev s (fun p' s' => mrun b p' s' k)
  | .alt a b, prev, s, k =>
    match mrun a prev s k with
    | some r => some r
    | none => mrun b prev s k
  | .opt a, prev, s, k =>
    match mrun a prev s k with
    | some r => some r
    | none => k prev s
  | .repCls p lo hi, prev, s, k => repRun p lo hi prev s k
  | .nla a, prev, s, k =>
    match mrun a prev s (fun p' s' => some (p', s')) with
    | some _ => none
    | none => k prev s
  | .wb, prev, s, k =>
    let before := match prev with | some c => isWordChar c | none => false
    let after := match s with | c :: _ => isWordChar c | [] => false
    if before ≠ after then k prev s else none

/-- Match `rx` exactly at the start of `s`. -/
def matchHere (rx : Rx) (prev : Option Char) (s : List Char) :
    Option (Option Char × List Char) :=
  mrun rx prev s (fun p' s' => some (p', s'))

/-- Leftmost match search from position `pos` (JavaScript `exec` from
`lastIndex`): returns start index, match length, and the context and
remaining input after the match. -/
def searchFrom (rx : Rx) : ℕ → Option Char → List Char →
    Option (ℕ × ℕ × Option Char × List Char)
  | pos, prev, [] =>
    match matchHere rx prev [] with
    | some (p', rest) => some (pos, ([] : List Char).length - rest.length, p', rest)
    | none => none
  | pos, prev, c :: s =>
    match matchHere rx prev (c :: s) with
    | some (p', rest) => some (pos, (c :: s).length - rest.length, p', rest)
    | none => searchFrom rx (pos + 1) (some c) s

/-- All matches of a global regex, as `(startIndex, length)` pairs — the
`while ((match = pattern.exec(text)) !== null)` loop of `findMatches`.
The fuel is `length + 1`; every pattern used consumes at least one
character per match (a zero-length match would loop forever in the
JavaScript original too). -/
def execAllAux (rx : Rx) : ℕ → ℕ → Option Char → List Char → List (ℕ × ℕ)
  | 0, _, _, _ => []
  | fuel + 1, pos, prev, s =>
    match searchFrom rx pos prev s with
    | none => []
    | some (st, len, p', rest) =>
      if len = 0 then []
      else (st, len) :: execAllAux rx fuel (st + len) p' rest

/-- All matches of `rx` in `text`. -/
def execAll (rx : Rx) (text : List Char) : List (ℕ × ℕ) :=
  execAllAux rx (text.length + 1) 0 none text

/-! ### PII detection (src/lib/safety/pii-detection.ts) -/

/-- `PIIType` -/
inductive PIIType where
  | email
  | phone
  | ssn
  | credit_card
  | ip_address
  | address
deriving DecidableEq, Repr

/-- `PIIMatch` (`value` as a character list). -/
structure PIIMatch where
  type : PIIType
  value : List Char
  startIndex : ℕ
  endIndex : ℕ
deriving DecidableEq, Repr

/-- `PIIDetectionResult` (`matches` renamed to `matchList`: `matches` is a
Lean keyword). -/
structure PIIDetectionResult where
  hasPII : Bool
  matchList : List PIIMatch
  types : List PIIType
deriving DecidableEq, Repr

/-- Local part class `[a-zA-Z0-9._%+-]` of the email pattern. -/
def emailLocalChar (c : Char) : Bool :=
  isAsciiLetter c || isDigitChar c || c = '.' || c = '_' || c = '%' || c = '+' || c = '-'

/-- Domain class `[a-zA-Z0-9.-]` of the email pattern. -/
def emailDomainChar (c : Char) : Bool :=
  isAsciiLetter c || isDigitChar c || c = '.' || c = '-'

/-- `EMAIL_PATTERN = /[a-zA-Z0-9._%+-]+@[a-zA-Z0-9.-]+\.[a-zA-Z]{2,}/g` -/
def EMAIL_PATTERN : Rx :=
  .seq (.repCls emailLocalChar 1 none)
    (.seq (.cls (· = '@'))
      (.seq (.repCls emailDomainChar 1 none)
        (.seq (.cls (· = '.')) (.repCls isAsciiLetter 2 none))))

/-- `[-.\s]` separator class of the phone pattern. -/
def phoneSep (c : Char) : Bool := c = '-' || c = '.' || isJsSpace c

/-- `PHONE_PATTERN = /(?:\+1[-.\s]?)?(?:\(?\d{3}\)?[-.\s]?)\d{3}[-.\s]?\d{4}\b/g` -/
def PHONE_PATTERN : Rx :=
  .seq (.opt (.seq (.cls (· = '+')) (.seq (.cls (· = '1')) (.opt (.cls phoneSep)))))
    (.seq (.seq (.opt (.cls (· = '(')))
        (.seq (.repCls isDigitChar 3 (some 3))
          (.seq (.opt (.cls (· = ')'))) (.opt (.cls phoneSep)))))
      (.seq (.repCls isDigitChar 3 (some 3))
        (.seq (.opt (.cls phoneSep))
          (.seq (.repCls isDigitChar 4 (some 4)) .wb))))

/-- `[-\s]` separator class of the SSN and credit-card patterns. -/
def dashSpace (c : Char) : Bool := c = '-' || isJsSpace c

/-- `SSN_PATTERN = /\b(?!000|666|9\d{2})\d{3}[-\s]?(?!00)\d{2}[-\s]?(?!0000)\d{4}\b/g` -/
def SSN_PATTERN : Rx :=
  .seq .wb
    (.seq (.nla (.alt (.lit "000".data)
        (.alt (.lit "666".data)
          (.seq (.cls (· = '9')) (.repCls isDigitChar 2 (some 2))))))
      (.seq (.repCls isDigitChar 3 (some 3))
        (.seq (.opt (.cls dashSpace))
          (.seq (.nla (.lit "00".data))
            (.seq (.repCls isDigitChar 2 (some 2))
              (.seq (.opt (.cls dashSpace))
                (.seq (.nla (.lit "0000".data))
                  (.seq (.repCls isDigitChar 4 (some 4)) .wb))))))))

/-- One `\d{4}[-\s]?` group of the credit-card pattern. -/
def cardGroup : Rx := .seq (.repCls isDigitChar 4 (some 4)) (.opt (.cls dashSpace))

/-- `CREDIT_CARD_PATTERN = /\b(?:\d{4}[-\s]?){3}\d{1,7}\b|\b\d{13,19}\b/g`
(the `{3}` group repetition unrolled). -/
def CREDIT_CARD_PATTERN : Rx :=
  .alt
    (.seq .wb (.seq cardGroup (.seq cardGroup (.seq cardGroup
      (.seq (.repCls isDigitChar 1 (some 7)) .wb)))))
    (.seq .wb (.seq (.repCls isDigitChar 13 (some 19)) .wb))

/-- One octet `(?:25[0-5]|2[0-4]\d|1\d{2}|[1-9]?\d)` of the IPv4 pattern. -/
def ipOctet : Rx :=
  .alt (.seq (.lit "25".data) (.cls (fun c => 48 ≤ c.toNat && c.toNat ≤ 53)))
    (.alt (.seq (.cls (· = '2'))
        (.seq (.cls (fun c => 48 ≤ c.toNat && c.toNat ≤ 52)) (.cls isDigitChar)))
      (.alt (.seq (.cls (· = '1')) (.repCls isDigitChar 2 (some 2)))
        (.seq (.opt (.cls (fun c => 49 ≤ c.toNat && c.toNat ≤ 57))) (.cls isDigitChar))))

/-- `IP_ADDRESS_PATTERN` (`\b(?:octet\.){3}octet\b`, the `{3}` unrolled). -/
def IP_ADDRESS_PATTERN : Rx :=
  .seq .wb
    (.seq (.seq ipOctet (.cls (· = '.')))
      (.seq (.seq ipOctet (.cls (· = '.')))
        (.seq (.seq ipOctet (.cls (· = '.')))
          (.seq ipOctet .wb))))

/-- Street-name class `[A-Za-z0-9\s]` of the address pattern. -/
def addressNameChar (c : Char) : Bool :=
  isAsciiLetter c || isDigitChar c || isJsSpace c

/-- A street-type word with optional trailing dot (`St\.?` etc.). -/
def litOptDot (s : String) : Rx := .seq (.lit s.data) (.opt (.cls (· = '.')))

/-- The street-type alternation of the address pattern, in source order. -/
def streetType : Rx :=
  .alt (.lit "Street".data) (.alt (litOptDot "St")
    (.alt (.lit "Avenue".data) (.alt (litOptDot "Ave")
      (.alt (.lit "Boulevard".data) (.alt (litOptDot "Blvd")
        (.alt (.lit "Drive".data) (.alt (litOptDot "Dr")
          (.alt (.lit "Road".data) (.alt (litOptDot "Rd")
            (.alt (.lit "Lane".data) (.alt (litOptDot "Ln")
              (.alt (.lit "Court".data) (.alt (litOptDot "Ct")
                (.alt (.lit "Place".data) (.alt (litOptDot "Pl")
                  (.alt (.lit "Way".data) (.alt (.lit "Circle".data)
                    (.alt (litOptDot "Cir") (.alt (.lit "Trail".data)
                      (litOptDot "Trl"))))))))))))))))))))

/-- `ADDRESS_PATTERN =
/\b\d{1,6}\s+[A-Za-z0-9\s]{2,30}\s+(?:Street|St\.?|...|Trl\.?)\b/gi` -/
def ADDRESS_PATTERN : Rx :=
  .seq .wb
    (.seq (.repCls isDigitChar 1 (some 6))
      (.seq (.repCls isJsSpace 1 none)
        (.seq (.repCls addressNameChar 2 (some 30))
          (.seq (.repCls isJsSpace 1 none)
            (.seq streetType .wb)))))

/-- `findMatches`: all matches of a global pattern, tagged with a type. -/
def findMatches (text : List Char) (pattern : Rx) (type : PIIType) :
    List PIIMatch :=
  (execAll pattern text).map (fun m =>
    { type := type, value := (text.drop m.1).take m.2,
      startIndex := m.1, endIndex := m.1 + m.2 })

/-- `detectEmails` -/
def detectEmails (text : List Char) : List PIIMatch :=
  findMatches text EMAIL_PATTERN .email

/-- `detectPhones` -/
def detectPhones (text : List Char) : List PIIMatch :=
  findMatches text PHONE_PATTERN .phone

/-- `detectSSNs` -/
def detectSSNs (text : List Char) : List PIIMatch :=
  findMatches text SSN_PATTERN .ssn

/-- `detectCreditCards`: matches filtered by digit count 13-19 and more
than one distinct digit. -/
def detectCreditCards (text : List Char) : List PIIMatch :=
  (findMatches text CREDIT_CARD_PATTERN .credit_card).filter (fun m =>
    let digitsOnly := m.value.filter (fun c => !dashSpace c)
    digitsOnly.dedup.length > 1 && digitsOnly.length ≥ 13 && digitsOnly.length ≤ 19)

/-- `detectIPAddresses`: matches filtered against localhost/broadcast. -/
def detectIPAddresses (text : List Char) : List PIIMatch :=
  (findMatches text IP_ADDRESS_PATTERN .ip_address).filter (fun m =>
    m.value ≠ "127.0.0.1".data ∧ m.value ≠ "0.0.0.0".data ∧
      m.value ≠ "255.255.255.255".data)

/-- `detectAddresses` -/
def detectAddresses (text : List Char) : List PIIMatch :=
  findMatches text ADDRESS_PATTERN .address

/-- Stable ascending insertion by `startIndex`
(`matches.sort((a, b) => a.startIndex - b.startIndex)`; JS sort is stable). -/
def insertByStart (m : PIIMatch) : List PIIMatch → List PIIMatch
  | [] => [m]
  | x :: xs =>
    if m.startIndex ≤ x.startIndex then m :: x :: xs else x :: insertByStart m xs

/-- Stable sort of matches by ascending `startIndex`. -/
def sortByStart : List PIIMatch → List PIIMatch
  | [] => []
  | x :: xs => insertByStart x (sortByStart xs)

/-- Stable descending insertion by `startIndex`
(`sort((a, b) => b.startIndex - a.startIndex)`). -/
def insertByStartDesc (m : PIIMatch) : List PIIMatch → List PIIMatch
  | [] => [m]
  | x :: xs =>
    if m.startIndex ≥ x.startIndex then m :: x :: xs else x :: insertByStartDesc m xs

/-- Stable sort of matches by descending `startIndex`. -/
def sortByStartDesc : List PIIMatch → List PIIMatch
  | [] => []
  | x :: xs => insertByStartDesc x (sortByStartDesc xs)

/-- `detectPII`: all detectors concatenated in source order, sorted by
start index; `types` is the first-occurrence deduplication
(`[...new Set(...)]`). -/
def detectPII (text : List Char) : PIIDetectionResult :=
  if text.isEmpty then { hasPII := false, matchList := [], types := [] }
  else
    let allMatches :=
      detectEmails text ++ detectPhones text ++ detectSSNs text ++
      detectCreditCards text ++ detectIPAddresses text ++ detectAddresses text
    let sorted := sortByStart allMatches
    { hasPII := !sorted.isEmpty, matchList := sorted,
      types := (sorted.map (·.type)).dedup }

/-- `containsPII` -/
def containsPII (text : List Char) : Bool := (detectPII text).hasPII

/-! ### PII redaction (the `type_label` strategy of `redactPII`, which is
what `redactForLogging` uses: `replacement = 'type_label'`, no
`typesToRedact` filter) -/

/-- `TYPE_LABELS` -/
def TYPE_LABELS (t : PIIType) : List Char :=
  match t with
  | .email => "[EMAIL]".data
  | .phone => "[PHONE]".data
  | .ssn => "[SSN]".data
  | .credit_card => "[CREDIT_CARD]".data
  | .ip_address => "[IP_ADDRESS]".data
  | .address => "[ADDRESS]".data

/-- `RedactionResult` -/
structure RedactionResult where
  redactedText : List Char
  redactions : List PIIMatch
  wasRedacted : Bool
deriving DecidableEq, Repr

/-- `redactPII` with the `type_label` replacement: matches are spliced out
from the highest start index down, each replaced by its type label
(`substring(0, start) + label + substring(end)`, with `ℕ` `take`/`drop`
clamping exactly as `substring` does). -/
def redactPII (text : List Char) : RedactionResult :=
  if text.isEmpty then { redactedText := text, redactions := [], wasRedacted := false }
  else
    let detection := detectPII text
    if !detection.hasPII then
      { redactedText := text, redactions := [], wasRedacted := false }
    else
      let sortedMatches := sortByStartDesc detection.matchList
      let redactedText := sortedMatches.foldl (fun acc m =>
        acc.take m.startIndex ++ TYPE_LABELS m.type ++ acc.drop m.endIndex) text
      { redactedText := redactedText, redactions := detection.matchList,
        wasRedacted := true }

/-- `redactForLogging` -/
def redactForLogging (text : String) : String :=
  ⟨(redactPII text.data).redactedText⟩

/-! ### Input sanitization (the sanitization module of src/lib/safety) -/

/-- The `"none" | "low" | "medium" | "high"` risk level. -/
inductive RiskLevel where
  | none
  | low
  | medium
  | high
deriving DecidableEq, Repr

/-- The `"low" | "medium" | "high"` per-pattern risk. -/
inductive Risk where
  | low
  | medium
  | high
deriving DecidableEq, Repr, BEq

/-- `SanitizationResult` -/
structure SanitizationResult where
  sanitizedText : List Char
  wasModified : Bool
  flags : List String
  riskLevel : RiskLevel
deriving DecidableEq, Repr

/-- `PromptInjectionResult` (`matches` renamed to `matchList`: `matches`
is a Lean keyword). -/
structure PromptInjectionResult where
  detected : Bool
  patterns : List String
  matchList : List (List Char)
deriving DecidableEq, Repr

/-- `InjectionPattern` -/
structure InjectionPattern where
  name : String
  pattern : Rx
  risk : Risk

/-- `MAX_INPUT_LENGTH` -/
def MAX_INPUT_LENGTH : ℕ := 10000

/-- `\s+` -/
def spacesPlus : Rx := .repCls isJsSpace 1 none

/-- `\s*` -/
def spacesStar : Rx := .repCls isJsSpace 0 none

/-- `[\s:]` -/
def spaceOrColon (c : Char) : Bool := isJsSpace c || c = ':'

/-- `/ignore\s+(all\s+|previous\s+|your\s+|the\s+)?instructions?/i` -/
def IGNORE_INSTRUCTIONS_RX : Rx :=
  .seq (.lit "ignore".data)
    (.seq spacesPlus
      (.seq (.opt (.alt (.seq (.lit "all".data) spacesPlus)
          (.alt (.seq (.lit "previous".data) spacesPlus)
            (.alt (.seq (.lit "your".data) spacesPlus)
              (.seq (.lit "the".data) spacesPlus)))))
        (.seq (.lit "instruction".data) (.opt (.lit "s".data)))))

/-- `/disregard\s+(all\s+|your\s+|the\s+)?(instructions?|rules?|guidelines?)/i` -/
def DISREGARD_INSTRUCTIONS_RX : Rx :=
  .seq (.lit "disregard".data)
    (.seq spacesPlus
      (.seq (.opt (.alt (.seq (.lit "all".data) spacesPlus)
          (.alt (.seq (.lit "your".data) spacesPlus)
            (.seq (.lit "the".data) spacesPlus))))
        (.alt (.seq (.lit "instruction".data) (.opt (.lit "s".data)))
          (.alt (.seq (.lit "rule".data) (.opt (.lit "s".data)))
            (.seq (.lit "guideline".data) (.opt (.lit "s".data)))))))

/-- `/forget\s+(all\s+|your\s+|the\s+)?(rules?|instructions?|guidelines?|everything)/i` -/
def FORGET_RULES_RX : Rx :=
  .seq (.lit "forget".data)
    (.seq spacesPlus
      (.seq (.opt (.alt (.seq (.lit "all".data) spacesPlus)
          (.alt (.seq (.lit "your".data) spacesPlus)
            (.seq (.lit "the".data) spacesPlus))))
        (.alt (.seq (.lit "rule".data) (.opt (.lit "s".data)))
          (.alt (.seq (.lit "instruction".data) (.opt (.lit "s".data)))
            (.alt (.seq (.lit "guideline".data) (.opt (.lit "s".data)))
              (.lit "everything".data))))))

/-- `/you\s+are\s+now\s+(?:a\s+)?[\w\s]+/i` -/
def YOU_ARE_NOW_RX : Rx :=
  .seq (.lit "you".data)
    (.seq spacesPlus
      (.seq (.lit "are".data)
        (.seq spacesPlus
          (.seq (.lit "now".data)
            (.seq spacesPlus
              (.seq (.opt (.seq (.lit "a".data) spacesPlus))
                (.repCls (fun c => isWordChar c || isJsSpace c) 1 none)))))))

/-- `/act\s+as\s+(?:a\s+)?(?:hacker|admin|unrestricted|evil|unfiltered|jailbroken)/i` -/
def ACT_AS_RX : Rx :=
  .seq (.lit "act".data)
    (.seq spacesPlus
      (.seq (.lit "as".data)
        (.seq spacesPlus
          (.seq (.opt (.seq (.lit "a".data) spacesPlus))
            (.alt (.lit "hacker".data) (.alt (.lit "admin".data)
              (.alt (.lit "unrestricted".data) (.alt (.lit "evil".data)
                (.alt (.lit "unfiltered".data) (.lit "jailbroken".data))))))))))

/-- `/pretend\s+(?:to\s+be|you\s+(?:are|have|can))/i` -/
def PRETEND_TO_BE_RX : Rx :=
  .seq (.lit "pretend".data)
    (.seq spacesPlus
      (.alt (.seq (.lit "to".data) (.seq spacesPlus (.lit "be".data)))
        (.seq (.lit "you".data)
          (.seq spacesPlus
            (.alt (.lit "are".data) (.alt (.lit "have".data) (.lit "can".data)))))))

/-- `/(?:new|override|updated?)\s*(?:instructions?|system\s*prompt|rules?)[\s:]/i` -/
def NEW_INSTRUCTIONS_RX : Rx :=
  .seq (.alt (.lit "new".data) (.alt (.lit "override".data)
      (.seq (.lit "update".data) (.opt (.lit "d".data)))))
    (.seq spacesStar
      (.seq (.alt (.seq (.lit "instruction".data) (.opt (.lit "s".data)))
          (.alt (.seq (.lit "system".data) (.seq spacesStar (.lit "prompt".data)))
            (.seq (.lit "rule".data) (.opt (.lit "s".data)))))
        (.cls spaceOrColon)))

/-- `/(?:system\s*prompt|system|<<\s*sys\s*>>|\[system\])[\s:]/i` -/
def SYSTEM_PROMPT_RX : Rx :=
  .seq (.alt (.seq (.lit "system".data) (.seq spacesStar (.lit "prompt".data)))
      (.alt (.lit "system".data)
        (.alt (.seq (.cls (· = '<')) (.seq (.cls (· = '<'))
            (.seq spacesStar (.seq (.lit "sys".data)
              (.seq spacesStar (.seq (.cls (· = '>')) (.cls (· = '>'))))))))
          (.seq (.cls (· = '[')) (.seq (.lit "system".data) (.cls (· = ']')))))))
    (.cls spaceOrColon)

/-- `/\b(?:DAN|do\s+anything\s+now|developer\s+mode|jailbreak)\b/i` -/
def JAILBREAK_DAN_RX : Rx :=
  .seq .wb
    (.seq (.alt (.lit "DAN".data)
        (.alt (.seq (.lit "do".data) (.seq spacesPlus
            (.seq (.lit "anything".data) (.seq spacesPlus (.lit "now".data)))))
          (.alt (.seq (.lit "developer".data) (.seq spacesPlus (.lit "mode".data)))
            (.lit "jailbreak".data))))
      .wb)

/-- `/(?:without|no|bypass|disable|remove)\s+(?:restrictions?|rules?|filters?|limitations?|guidelines?)/i` -/
def NO_RESTRICTIONS_RX : Rx :=
  .seq (.alt (.lit "without".data) (.alt (.lit "no".data)
      (.alt (.lit "bypass".data) (.alt (.lit "disable".data) (.lit "remove".data)))))
    (.seq spacesPlus
      (.alt (.seq (.lit "restriction".data) (.opt (.lit "s".data)))
        (.alt (.seq (.lit "rule".data) (.opt (.lit "s".data)))
          (.alt (.seq (.lit "filter".data) (.opt (.lit "s".data)))
            (.alt (.seq (.lit "limitation".data) (.opt (.lit "s".data)))
              (.seq (.lit "guideline".data) (.opt (.lit "s".data))))))))

/-- The backtick character, written by code point. -/
def backtickChar : Char := Char.ofNat 96

/-- ```` /```\s*(?:system|instructions?|prompt|override)/i ```` -/
def CODE_BLOCK_INJECTION_RX : Rx :=
  .seq (.cls (· = backtickChar))
    (.seq (.cls (· = backtickChar))
      (.seq (.cls (· = backtickChar))
        (.seq spacesStar
          (.alt (.lit "system".data)
            (.alt (.seq (.lit "instruction".data) (.opt (.lit "s".data)))
              (.alt (.lit "prompt".data) (.lit "override".data)))))))

/-- `/<\/?(?:system|instructions?|prompt|override|admin)>/i` -/
def XML_TAG_INJECTION_RX : Rx :=
  .seq (.cls (· = '<'))
    (.seq (.opt (.cls (· = '/')))
      (.seq (.alt (.lit "system".data)
          (.alt (.seq (.lit "instruction".data) (.opt (.lit "s".data)))
            (.alt (.lit "prompt".data) (.alt (.lit "override".data)
              (.lit "admin".data)))))
        (.cls (· = '>'))))

/-- `/(?:repeat\s+after\s+me|say\s+exactly|output\s+(?:the\s+)?following)/i` -/
def REPEAT_AFTER_ME_RX : Rx :=
  .alt (.seq (.lit "repeat".data) (.seq spacesPlus
      (.seq (.lit "after".data) (.seq spacesPlus (.lit "me".data)))))
    (.alt (.seq (.lit "say".data) (.seq spacesPlus (.lit "exactly".data)))
      (.seq (.lit "output".data) (.seq spacesPlus
        (.seq (.opt (.seq (.lit "the".data) spacesPlus)) (.lit "following".data)))))

/-- `/ignora\s+(?:las\s+)?instrucciones/i` -/
def IGNORE_INSTRUCTIONS_ES_RX : Rx :=
  .seq (.lit "ignora".data)
    (.seq spacesPlus
      (.seq (.opt (.seq (.lit "las".data) spacesPlus)) (.lit "instrucciones".data)))

/-- `/ignore[rz]?\s+(?:les\s+)?instructions/i` -/
def IGNORE_INSTRUCTIONS_FR_RX : Rx :=
  .seq (.lit "ignore".data)
    (.seq (.opt (.cls (fun c => c.toLower = 'r' || c.toLower = 'z')))
      (.seq spacesPlus
        (.seq (.opt (.seq (.lit "les".data) spacesPlus)) (.lit "instructions".data))))

/-- `/ignorier(?:e|en)?\s+(?:die\s+)?Anweisungen/i` -/
def IGNORE_INSTRUCTIONS_DE_RX : Rx :=
  .seq (.lit "ignorier".data)
    (.seq (.opt (.alt (.lit "e".data) (.lit "en".data)))
      (.seq spacesPlus
        (.seq (.opt (.seq (.lit "die".data) spacesPlus)) (.lit "Anweisungen".data))))

/-- `PROMPT_INJECTION_PATTERNS`, in source order. -/
def PROMPT_INJECTION_PATTERNS : List InjectionPattern :=
  [⟨"ignore_instructions", IGNORE_INSTRUCTIONS_RX, .high⟩,
   ⟨"disregard_instructions", DISREGARD_INSTRUCTIONS_RX, .high⟩,
   ⟨"forget_rules", FORGET_RULES_RX, .high⟩,
   ⟨"you_are_now", YOU_ARE_NOW_RX, .high⟩,
   ⟨"act_as", ACT_AS_RX, .high⟩,
   ⟨"pretend_to_be", PRETEND_TO_BE_RX, .medium⟩,
   ⟨"new_instructions", NEW_INSTRUCTIONS_RX, .high⟩,
   ⟨"system_prompt", SYSTEM_PROMPT_RX, .high⟩,
   ⟨"jailbreak_dan", JAILBREAK_DAN_RX, .high⟩,
   ⟨"no_restrictions", NO_RESTRICTIONS_RX, .high⟩,
   ⟨"code_block_injection", CODE_BLOCK_INJECTION_RX, .medium⟩,
   ⟨"xml_tag_injection", XML_TAG_INJECTION_RX, .medium⟩,
   ⟨"repeat_after_me", REPEAT_AFTER_ME_RX, .medium⟩,
   ⟨"ignore_instructions_es", IGNORE_INSTRUCTIONS_ES_RX, .high⟩,
   ⟨"ignore_instructions_fr", IGNORE_INSTRUCTIONS_FR_RX, .high⟩,
   ⟨"ignore_instructions_de", IGNORE_INSTRUCTIONS_DE_RX, .high⟩]

/-- `detectPromptInjection`: each pattern is `exec`ed once; names and
first-match snippets of the patterns that fired, in pattern order. -/
def detectPromptInjection (text : List Char) : PromptInjectionResult :=
  if text.isEmpty then { detected := false, patterns := [], matchList := [] }
  else
    let results := PROMPT_INJECTION_PATTERNS.filterMap (fun p =>
      match searchFrom p.pattern 0 none text with
      | some (st, len, _, _) => some (p.name, (text.drop st).take len)
      | none => none)
    { detected := !results.isEmpty,
      patterns := results.map (·.1),
      matchList := results.map (·.2) }

/-- `CONTROL_CHAR_PATTERN = /[\x00-\x08\x0B\x0C\x0E-\x1F\x7F]/g`
(newline, carriage return and tab preserved). -/
def isCtrlChar (c : Char) : Bool :=
  c.toNat ≤ 0x08 || c.toNat = 0x0B || c.toNat = 0x0C ||
  (0x0E ≤ c.toNat && c.toNat ≤ 0x1F) || c.toNat = 0x7F

/-- `INVISIBLE_CHAR_PATTERN = /[​-‍﻿⁠᠎]/g` -/
def isInvisibleChar (c : Char) : Bool :=
  (0x200B ≤ c.toNat && c.toNat ≤ 0x200D) || c.toNat = 0xFEFF ||
  c.toNat = 0x2060 || c.toNat = 0x180E

/-- `[ \t]` -/
def isSpTab (c : Char) : Bool := c = ' ' || c = '\t'

/-- Step 2: `replace(CONTROL_CHAR_PATTERN, "")`. -/
def removeControlChars (l : List Char) : List Char :=
  l.filter (fun c => !isCtrlChar c)

/-- Step 3: `replace(INVISIBLE_CHAR_PATTERN, "")`. -/
def removeInvisibleChars (l : List Char) : List Char :=
  l.filter (fun c => !isInvisibleChar c)

/-- Global replacement of every maximal run of `p`-characters of length at
least `minRun` by `repl` (the effect of `replace(/X{n,}/g, repl)` for a
single-character class `X`). Fuel decreases strictly; it is initialised to
the input length, an upper bound on the number of steps. -/
def collapseRuns (p : Char → Bool) (minRun : ℕ) (repl : List Char) :
    ℕ → List Char → List Char
  | 0, l => l
  | _ + 1, [] => []
  | fuel + 1, c :: rest =>
    if p c then
      let run := (c :: rest).takeWhile p
      let tail := (c :: rest).dropWhile p
      (if run.length ≥ minRun then repl else run) ++ collapseRuns p minRun repl fuel tail
    else c :: collapseRuns p minRun repl fuel rest

/-- `replace(EXCESSIVE_WHITESPACE_PATTERN, "  ")`: collapse 3+ spaces/tabs
to two spaces. -/
def collapseSpaces (l : List Char) : List Char :=
  collapseRuns isSpTab 3 "  ".data l.length l

/-- `replace(EXCESSIVE_NEWLINES_PATTERN, "\n\n\n")`: collapse 4+ newlines
to three. -/
def collapseNewlines (l : List Char) : List Char :=
  collapseRuns (· = '\n') 4 "\n\n\n".data l.length l

/-- Step 4 of `sanitizeInput`: both whitespace replacements in order. -/
def normalizeWhitespace (l : List Char) : List Char :=
  collapseNewlines (collapseSpaces l)

/-- Step 5: JavaScript `String.prototype.trim` (strips `\s` both ends). -/
def jsTrim (l : List Char) : List Char :=
  ((l.dropWhile isJsSpace).reverse.dropWhile isJsSpace).reverse

/-- `calculateRiskLevel`: high if a high-risk pattern fired; else medium if
a medium-risk pattern fired; else low on any low-risk flag or truncation;
else none. -/
def calculateRiskLevel (injectionResult : PromptInjectionResult)
    (flags : List String) : RiskLevel :=
  let highRiskPatterns := PROMPT_INJECTION_PATTERNS.filter (fun p =>
    p.risk == Risk.high && injectionResult.patterns.contains p.name)
  if highRiskPatterns.length > 0 then .high
  else
    let mediumRiskPatterns := PROMPT_INJECTION_PATTERNS.filter (fun p =>
      p.risk == Risk.medium && injectionResult.patterns.contains p.name)
    if mediumRiskPatterns.length > 0 then .medium
    else
      let lowRiskFlags := ["control_characters", "invisible_characters",
        "excessive_whitespace"]
      if flags.any (fun f => lowRiskFlags.contains f) then .low
      else if flags.contains "truncated" then .low
      else .none

/-- The flags accumulated by `sanitizeInput`'s steps, in push order:
injection flags, then `control_characters`, `invisible_characters`,
`excessive_whitespace` and `truncated` as the respective steps change
the text. -/
def sanitizeFlags (text : List Char) : List String :=
  let s1 := removeControlChars text
  let s2 := removeInvisibleChars s1
  let s3 := normalizeWhitespace s2
  let s4 := jsTrim s3
  ((detectPromptInjection text).patterns.map (fun p => "prompt_injection_" ++ p))
  ++ (if s1 ≠ text then ["control_characters"] else [])
  ++ (if s2 ≠ s1 then ["invisible_characters"] else [])
  ++ (if s3 ≠ s2 then ["excessive_whitespace"] else [])
  ++ (if s4.length > MAX_INPUT_LENGTH then ["truncated"] else [])

/-- `wasModified`: true iff one of steps 2-6 changed the text. -/
def sanitizeModified (text : List Char) : Bool :=
  let s1 := removeControlChars text
  let s2 := removeInvisibleChars s1
  let s3 := normalizeWhitespace s2
  let s4 := jsTrim s3
  decide (s1 ≠ text) || decide (s2 ≠ s1) || decide (s3 ≠ s2) ||
  decide (s4 ≠ s3) || decide (s4.length > MAX_INPUT_LENGTH)

/-- The sanitized text: steps 2-6 applied in order. -/
def sanitizeText (text : List Char) : List Char :=
  let s4 := jsTrim (normalizeWhitespace (removeInvisibleChars (removeControlChars text)))
  if s4.length > MAX_INPUT_LENGTH then s4.take MAX_INPUT_LENGTH else s4

/-- `sanitizeInput` -/
def sanitizeInput (text : List Char) : SanitizationResult :=
  if text.isEmpty then
    { sanitizedText := [], wasModified := false, flags := [], riskLevel := .none }
  else
    { sanitizedText := sanitizeText text
      wasModified := sanitizeModified text
      flags := sanitizeFlags text
      riskLevel := calculateRiskLevel (detectPromptInjection text) (sanitizeFlags text) }

/-- `shouldBlockInput` -/
def shouldBlockInput (result : SanitizationResult) : Bool :=
  result.riskLevel == RiskLevel.high

/-- `isCleanText` -/
def isCleanText (text : List Char) : Bool :=
  if text.isEmpty then true
  else
    let result := sanitizeInput text
    result.riskLevel == RiskLevel.none && !result.wasModified

/-! ### Helper lemmas for the confidence scorer -/

theorem clamp01_nonneg (x : ℚ) : 0 ≤ clamp01 x := le_max_left 0 _

theorem clamp01_le_one (x : ℚ) : clamp01 x ≤ 1 :=
  max_le (by norm_num) (min_le_left 1 x)

theorem calculateWeightedScore_eq (f : ConfidenceFactors) :
    calculateWeightedScore f =
      clamp01 (0.40 * f.sourceRelevance + 0.25 * f.sourceCoverage +
        0.15 * f.queryClarity + 0.20 * f.contextMatch) := by
  unfold calculateWeightedScore clamp01 SOURCE_RELEVANCE_WEIGHT SOURCE_COVERAGE_WEIGHT
    QUERY_CLARITY_WEIGHT CONTEXT_MATCH_WEIGHT
  ring_nf

theorem getConfidenceLevel_high_iff (s : ℚ) :
    getConfidenceLevel s = .high ↔ 0.75 ≤ s := by
  unfold getConfidenceLevel HIGH_THRESHOLD MEDIUM_THRESHOLD
  by_cases h1 : (0.75 : ℚ) ≤ s
  · simp [ge_iff_le, h1]
  · by_cases h2 : (0.5 : ℚ) ≤ s <;> simp [ge_iff_le, h1, h2]

theorem getConfidenceLevel_medium_iff (s : ℚ) :
    getConfidenceLevel s = .medium ↔ 0.5 ≤ s ∧ s < 0.75 := by
  unfold getConfidenceLevel HIGH_THRESHOLD MEDIUM_THRESHOLD
  by_cases h1 : (0.75 : ℚ) ≤ s
  · simp [ge_iff_le, h1, not_lt.mpr h1]
  · by_cases h2 : (0.5 : ℚ) ≤ s <;>
      simp [ge_iff_le, h1, h2, not_le.mp h1]

theorem getConfidenceLevel_low_iff (s : ℚ) :
    getConfidenceLevel s = .low ↔ s < 0.5 := by
  unfold getConfidenceLevel HIGH_THRESHOLD MEDIUM_THRESHOLD
  by_cases h1 : (0.75 : ℚ) ≤ s
  · have h2 : (0.5 : ℚ) ≤ s := le_trans (by norm_num) h1
    simp [ge_iff_le, h1, not_lt.mpr h2]
  · by_cases h2 : (0.5 : ℚ) ≤ s
    · simp [ge_iff_le, h1, h2, not_lt.mpr h2]
    · simp [ge_iff_le, h1, h2, not_le.mp h2]

/-! ### Claim theorems: confidence and fallback -/

/-- C1: for every confidence input, `calculateConfidence` returns
`score = 0.40·sourceRelevance + 0.25·sourceCoverage + 0.15·queryClarity +
0.20·contextMatch` clamped into `[0,1]`, and the returned level is determined
from the score alone by the fixed thresholds: `high` iff `score ≥ 0.75`,
`medium` iff `0.50 ≤ score < 0.75`, `low` otherwise. -/
theorem claim_C1_confidence_score_and_level (params : ConfidenceParams) :
    (calculateConfidence params).score =
      clamp01 (0.40 * (calculateConfidence params).factors.sourceRelevance
        + 0.25 * (calculateConfidence params).factors.sourceCoverage
        + 0.15 * (calculateConfidence params).factors.queryClarity
        + 0.20 * (calculateConfidence params).factors.contextMatch)
    ∧ 0 ≤ (calculateConfidence params).score
    ∧ (calculateConfidence params).score ≤ 1
    ∧ ((calculateConfidence params).level = .high ↔
        0.75 ≤ (calculateConfidence params).score)
    ∧ ((calculateConfidence params).level = .medium ↔
        0.5 ≤ (calculateConfidence params).score ∧
          (calculateConfidence params).score < 0.75)
    ∧ ((calculateConfidence params).level = .low ↔
        (calculateConfidence params).score < 0.5) := by
  have hscore : (calculateConfidence params).score =
      calculateWeightedScore (calculateFactors params.sources params.queryLength
        params.kbMatchCount params.ticketMatchCount) := rfl
  have hfac : (calculateConfidence params).factors =
      calculateFactors params.sources params.queryLength
        params.kbMatchCount params.ticketMatchCount := rfl
  have hlev : (calculateConfidence params).level =
      getConfidenceLevel (calculateConfidence params).score := rfl
  refine ⟨?_, ?_, ?_, ?_, ?_, ?_⟩
  · rw [hscore, hfac, calculateWeightedScore_eq]
  · rw [hscore, calculateWeightedScore_eq]; exact clamp01_nonneg _
  · rw [hscore, calculateWeightedScore_eq]; exact clamp01_le_one _
  · rw [hlev]; exact getConfidenceLevel_high_iff _
  · rw [hlev]; exact getConfidenceLevel_medium_iff _
  · rw [hlev]; exact getConfidenceLevel_low_iff _

/-- C2: whenever `shouldUseFallback` triggers (score below the 0.30 absolute
floor, or below 0.40 with zero sources), `getFallbackReason` picks
`unclear_query` for query lengths outside `[10, 1000]`, else `no_sources`
when there are no sources, else `low_similarity`; it never returns
`generation_error` under these hypotheses. -/
theorem claim_C2_fallback_reason_order (cs : ℚ) (sc ql : ℕ)
    (h : shouldUseFallback cs sc = true) :
    getFallbackReason cs sc ql =
      (if ql < 10 ∨ ql > 1000 then .unclear_query
       else if sc = 0 then .no_sources
       else .low_similarity)
    ∧ getFallbackReason cs sc ql ≠ .generation_error := by
  have hcs' : cs < 0.4 := by
    unfold shouldUseFallback MIN_CONFIDENCE_ABSOLUTE MIN_CONFIDENCE_WITH_SOURCES at h
    split_ifs at h with h1 h2
    · exact lt_of_lt_of_le h1 (by norm_num)
    · exact h2.1
  unfold getFallbackReason MIN_QUERY_LENGTH MAX_QUERY_LENGTH
  split_ifs with h1 h2 h3
  · exact ⟨rfl, by simp⟩
  · exact ⟨rfl, by simp⟩
  · exact ⟨rfl, by simp⟩
  · exact absurd ⟨Nat.pos_of_ne_zero h2, hcs'⟩ h3

/-- Witness for C2 at a concrete low-confidence input with one source. -/
theorem claim_C2_fallback_reason_order_witness :
    getFallbackReason 0.2 1 50 = .low_similarity
    ∧ getFallbackReason 0.2 1 50 ≠ .generation_error := by
  have h := claim_C2_fallback_reason_order 0.2 1 50 (by decide)
  simpa using h

theorem queryClarity_optimal_band (n : ℕ) (h1 : 20 ≤ n) (h2 : n ≤ 200) :
    0.85 ≤ calculateQueryClarity n ∧ calculateQueryClarity n ≤ 1 := by
  have hq1 : (20 : ℚ) ≤ (n : ℚ) := by exact_mod_cast h1
  have hq2 : (n : ℚ) ≤ 200 := by exact_mod_cast h2
  unfold calculateQueryClarity
  rw [if_neg (by omega), if_neg (by omega), if_neg (by omega), if_pos h2]
  have habs : |(n : ℚ) - (20 + 200) / 2| ≤ 90 := by
    rw [abs_le]; constructor <;> nlinarith
  have habs0 : 0 ≤ |(n : ℚ) - (20 + 200) / 2| := abs_nonneg _
  constructor <;> nlinarith

/-- C6 counterexample: at `queryLength = 0` (which is "below 10"),
`calculateQueryClarity` returns `0`, outside the claimed `[0.2, 0.4]` band. -/
theorem claim_C6_counterexample :
    calculateQueryClarity 0 = 0 ∧ ¬ (0.2 ≤ calculateQueryClarity 0) := by
  decide

/-- C6 (amended): the banded behaviour of `calculateQueryClarity` holds for
all positive lengths: `[0.2, 0.4]` on `[1, 10)`; `[0.4, 0.7]` on `[10, 20)`;
`[0.85, 1]` on `[20, 200]` with the peak value `1` attained at the midpoint
`110` and bounding all values of the band; strictly below `0.85` and at least
`0.6`, decreasing, on `(200, 500]`; and within `[0.4, 0.6]` beyond `500`
(the extra reduction is capped so the value never drops below the `0.4`
floor). At `queryLength = 0` the function returns `0` instead. -/
theorem claim_C6_query_clarity_bands (n : ℕ) :
    (1 ≤ n → n < 10 →
      0.2 ≤ calculateQueryClarity n ∧ calculateQueryClarity n ≤ 0.4)
    ∧ (10 ≤ n → n < 20 →
      0.4 ≤ calculateQueryClarity n ∧ calculateQueryClarity n ≤ 0.7)
    ∧ (20 ≤ n → n ≤ 200 →
      0.85 ≤ calculateQueryClarity n ∧ calculateQueryClarity n ≤ 1)
    ∧ calculateQueryClarity 110 = 1
    ∧ (20 ≤ n → n ≤ 200 → calculateQueryClarity n ≤ calculateQueryClarity 110)
    ∧ (200 < n → n ≤ 500 →
      (0.6 ≤ calculateQueryClarity n ∧ calculateQueryClarity n < 0.85)
      ∧ ∀ m : ℕ, 200 < m → m ≤ n → calculateQueryClarity n ≤ calculateQueryClarity m)
    ∧ (500 < n →
      0.4 ≤ calculateQueryClarity n ∧ calculateQueryClarity n ≤ 0.6) := by
  have h110 : calculateQueryClarity 110 = 1 := by decide
  refine ⟨?_, ?_, ?_, h110, ?_, ?_, ?_⟩
  · intro h1 h2
    have hq1 : (1 : ℚ) ≤ (n : ℚ) := by exact_mod_cast h1
    have hq2 : (n : ℚ) ≤ 9 := by exact_mod_cast Nat.lt_succ_iff.mp h2
    unfold calculateQueryClarity
    rw [if_neg (by omega), if_pos h2]
    constructor <;> nlinarith
  · intro h1 h2
    have hq1 : (10 : ℚ) ≤ (n : ℚ) := by exact_mod_cast h1
    have hq2 : (n : ℚ) ≤ 19 := by exact_mod_cast Nat.lt_succ_iff.mp h2
    unfold calculateQueryClarity
    rw [if_neg (by omega), if_neg (by omega), if_pos h2]
    constructor <;> nlinarith
  · exact queryClarity_optimal_band n
  · intro h1 h2
    exact ((queryClarity_optimal_band n h1 h2).2).trans_eq h110.symm
  · intro h1 h2
    have hq1 : (200 : ℚ) < (n : ℚ) := by exact_mod_cast h1
    have hq2 : (n : ℚ) ≤ 500 := by exact_mod_cast h2
    constructor
    · unfold calculateQueryClarity
      rw [if_neg (by omega), if_neg (by omega), if_neg (by omega),
        if_neg (by omega), if_pos h2]
      constructor <;> nlinarith
    · intro m hm1 hm2
      have hmq1 : (200 : ℚ) < (m : ℚ) := by exact_mod_cast hm1
      have hmq2 : (m : ℚ) ≤ (n : ℚ) := by exact_mod_cast hm2
      have hm500 : m ≤ 500 := le_trans hm2 h2
      unfold calculateQueryClarity
      rw [if_neg (by omega), if_neg (by omega), if_neg (by omega),
        if_neg (by omega), if_pos h2, if_neg (by omega), if_neg (by omega),
        if_neg (by omega), if_neg (by omega), if_pos hm500]
      nlinarith
  · intro h1
    have hq1 : (500 : ℚ) < (n : ℚ) := by exact_mod_cast h1
    unfold calculateQueryClarity
    rw [if_neg (by omega), if_neg (by omega), if_neg (by omega),
      if_neg (by omega), if_neg (by omega)]
    constructor
    · exact le_max_left _ _
    · refine max_le (by norm_num) ?_
      have hmin : 0 ≤ min 0.2 (((n : ℚ) - 500) / 1000 * 0.2) := by
        refine le_min (by norm_num) ?_
        nlinarith
      linarith

/-- Witness for C6 (amended) at `queryLength = 5`. -/
theorem claim_C6_query_clarity_bands_witness :
    0.2 ≤ calculateQueryClarity 5 ∧ calculateQueryClarity 5 ≤ 0.4 :=
  (claim_C6_query_clarity_bands 5).1 (by decide) (by decide)

theorem queryClarity_bounds (n : ℕ) :
    0 ≤ calculateQueryClarity n ∧ calculateQueryClarity n ≤ 1 := by
  unfold calculateQueryClarity
  split_ifs with h1 h2 h3 h4 h5
  · norm_num
  · have hq1 : (1 : ℚ) ≤ (n : ℚ) := by
      exact_mod_cast Nat.one_le_iff_ne_zero.mpr h1
    have hq2 : (n : ℚ) ≤ 9 := by exact_mod_cast Nat.lt_succ_iff.mp h2
    constructor <;> nlinarith
  · have hq1 : (10 : ℚ) ≤ (n : ℚ) := by exact_mod_cast Nat.le_of_not_lt h2
    have hq2 : (n : ℚ) ≤ 19 := by exact_mod_cast Nat.lt_succ_iff.mp h3
    constructor <;> nlinarith
  · have hq1 : (20 : ℚ) ≤ (n : ℚ) := by exact_mod_cast Nat.le_of_not_lt h3
    have hq2 : (n : ℚ) ≤ 200 := by exact_mod_cast h4
    have habs : |(n : ℚ) - (20 + 200) / 2| ≤ 90 := by
      rw [abs_le]; constructor <;> nlinarith
    have habs0 : 0 ≤ |(n : ℚ) - (20 + 200) / 2| := abs_nonneg _
    constructor <;> nlinarith
  · have hq1 : (200 : ℚ) < (n : ℚ) := by
      exact_mod_cast Nat.lt_of_not_le (fun hle => h4 hle)
    have hq2 : (n : ℚ) ≤ 500 := by exact_mod_cast h5
    constructor <;> nlinarith
  · have hq1 : (500 : ℚ) < (n : ℚ) := by
      exact_mod_cast Nat.lt_of_not_le (fun hle => h5 hle)
    constructor
    · exact le_trans (by norm_num) (le_max_left _ _)
    · refine max_le (by norm_num) ?_
      have hmin : 0 ≤ min 0.2 (((n : ℚ) - 500) / 1000 * 0.2) := by
        refine le_min (by norm_num) ?_
        nlinarith
      linarith

/-! ### Helper lemmas for context assembly -/

theorem foldl_append_length_ge (l : List String) (acc : String) :
    acc.length ≤ (l.foldl (fun a s => a ++ s) acc).length := by
  induction l generalizing acc with
  | nil => exact le_refl _
  | cons x xs ih =>
    refine le_trans ?_ (ih (acc ++ x))
    rw [String.length_append]
    omega

theorem join_cons_length_ge (s : String) (l : List String) :
    s.length ≤ (String.join (s :: l)).length := by
  unfold String.join
  simp only [List.foldl_cons]
  refine le_trans ?_ (foldl_append_length_ge l ("" ++ s))
  rw [String.length_append]
  simp

theorem ne_empty_of_length_pos {s : String} (h : 0 < s.length) : s ≠ "" := by
  intro he
  subst he
  simp at h

theorem formatKBSection_empty_iff (articles : List KbArticle) (maxLength : ℤ) :
    ((formatKBSection articles maxLength).1 = "" ↔
      (formatKBSection articles maxLength).2 = []) := by
  unfold formatKBSection
  by_cases h : (kbGo maxLength articles 0 (("KNOWLEDGE BASE:" : String).length : ℤ)).2.isEmpty
  · simp [h, List.isEmpty_iff.mp h]
  · have hne : (kbGo maxLength articles 0 (("KNOWLEDGE BASE:" : String).length : ℤ)).2 ≠ [] := by
      simpa [List.isEmpty_iff] using h
    have hjoin : (String.join ("KNOWLEDGE BASE:" ::
        (kbGo maxLength articles 0 (("KNOWLEDGE BASE:" : String).length : ℤ)).1)) ≠ "" := by
      refine ne_empty_of_length_pos (lt_of_lt_of_le ?_ (join_cons_length_ge _ _))
      decide
    simp only [h, Bool.false_eq_true, if_false]
    exact ⟨fun hc => absurd hc hjoin, fun hnil => absurd hnil hne⟩

theorem formatTicketSection_empty_iff (tickets : List SimilarTicketContext)
    (maxLength : ℤ) :
    ((formatTicketSection tickets maxLength).1 = "" ↔
      (formatTicketSection tickets maxLength).2 = []) := by
  unfold formatTicketSection
  by_cases h : (ticketGo maxLength tickets 0
      (("SIMILAR RESOLVED TICKETS:" : String).length : ℤ)).2.isEmpty
  · simp [h, List.isEmpty_iff.mp h]
  · have hne : (ticketGo maxLength tickets 0
        (("SIMILAR RESOLVED TICKETS:" : String).length : ℤ)).2 ≠ [] := by
      simpa [List.isEmpty_iff] using h
    have hjoin : (String.join ("SIMILAR RESOLVED TICKETS:" ::
        (ticketGo maxLength tickets 0
          (("SIMILAR RESOLVED TICKETS:" : String).length : ℤ)).1)) ≠ "" := by
      refine ne_empty_of_length_pos (lt_of_lt_of_le ?_ (join_cons_length_ge _ _))
      decide
    simp only [h, Bool.false_eq_true, if_false]
    exact ⟨fun hc => absurd hc hjoin, fun hnil => absurd hnil hne⟩

theorem assembleKbStep_parts_iff (arts : List KbArticle) (m : ℤ) :
    (assembleKbStep arts m).1 = [] ↔ (assembleKbStep arts m).2.1 = [] := by
  by_cases h1 : arts.length > 0
  · by_cases h2 : (formatKBSection arts m).1 = ""
    · simp [assembleKbStep, h1, h2]
    · have h2' : (formatKBSection arts m).2 ≠ [] := fun hs =>
        h2 ((formatKBSection_empty_iff arts m).mpr hs)
      simp [assembleKbStep, h1, h2, h2']
  · simp [assembleKbStep, h1]

theorem assembleTicketStep_parts_iff (tks : List SimilarTicketContext)
    (m len : ℤ) :
    (assembleTicketStep tks m len).1 = [] ↔ (assembleTicketStep tks m len).2 = [] := by
  by_cases h1 : tks.length > 0 ∧ len < m
  · by_cases h2 : (formatTicketSection tks (m - len)).1 = ""
    · simp [assembleTicketStep, h1, h2]
    · have h2' : (formatTicketSection tks (m - len)).2 ≠ [] := fun hs =>
        h2 ((formatTicketSection_empty_iff tks (m - len)).mpr hs)
      simp [assembleTicketStep, h1, h2, h2']
  · simp [assembleTicketStep, h1]

theorem kbGo_sources_sublist (maxLength : ℤ) (arts : List KbArticle) :
    ∀ (i : ℕ) (len : ℤ), List.Sublist (kbGo maxLength arts i len).2 (arts.map kbRef) := by
  induction arts with
  | nil => intro i len; simp [kbGo]
  | cons a rest ih =>
    intro i len
    rw [kbGo]
    split_ifs with h
    · simp
    · simpa using List.Sublist.cons₂ (kbRef a) (ih _ _)

theorem ticketGo_sources_sublist (maxLength : ℤ) (tks : List SimilarTicketContext) :
    ∀ (i : ℕ) (len : ℤ), List.Sublist (ticketGo maxLength tks i len).2 (tks.map ticketRef) := by
  induction tks with
  | nil => intro i len; simp [ticketGo]
  | cons t rest ih =>
    intro i len
    rw [ticketGo]
    split_ifs with h
    · simp
    · simpa using List.Sublist.cons₂ (ticketRef t) (ih _ _)

theorem formatKBSection_sources_sublist (arts : List KbArticle) (m : ℤ) :
    List.Sublist (formatKBSection arts m).2 (arts.map kbRef) :=
  kbGo_sources_sublist m arts 0 _

theorem formatTicketSection_sources_sublist (tks : List SimilarTicketContext)
    (m : ℤ) :
    List.Sublist (formatTicketSection tks m).2 (tks.map ticketRef) :=
  ticketGo_sources_sublist m tks 0 _

theorem assembleKbStep_sources_sublist (arts : List KbArticle) (m : ℤ) :
    List.Sublist (assembleKbStep arts m).2.1 (arts.map kbRef) := by
  by_cases h1 : arts.length > 0
  · by_cases h2 : (formatKBSection arts m).1 = ""
    · simp [assembleKbStep, h1, h2]
    · simpa [assembleKbStep, h1, h2] using formatKBSection_sources_sublist arts m
  · simp [assembleKbStep, h1]

theorem assembleTicketStep_sources_sublist (tks : List SimilarTicketContext)
    (m len : ℤ) :
    List.Sublist (assembleTicketStep tks m len).2 (tks.map ticketRef) := by
  by_cases h1 : tks.length > 0 ∧ len < m
  · by_cases h2 : (formatTicketSection tks (m - len)).1 = ""
    · simp [assembleTicketStep, h1, h2]
    · simpa [assembleTicketStep, h1, h2] using
        formatTicketSection_sources_sublist tks (m - len)
  · simp [assembleTicketStep, h1]

theorem sorted_refs_of_sublist_map_kb {l : List KbArticle} {s : List SourceReference}
    (hs : List.Sublist s (l.map kbRef)) (hl : List.Pairwise kbSimGE l) :
    List.Sorted refSimGE s :=
  List.Pairwise.sublist hs (hl.map kbRef (fun _ _ h => h))

theorem sorted_refs_of_sublist_map_ticket {l : List SimilarTicketContext}
    {s : List SourceReference}
    (hs : List.Sublist s (l.map ticketRef)) (hl : List.Pairwise ticketSimGE l) :
    List.Sorted refSimGE s :=
  List.Pairwise.sublist hs (hl.map ticketRef (fun _ _ h => h))

theorem type_kb_of_sublist_map {l : List KbArticle} {s : List SourceReference}
    (hs : List.Sublist s (l.map kbRef)) : ∀ x ∈ s, x.type = SourceType.kb := by
  intro x hx
  obtain ⟨a, _, rfl⟩ := List.mem_map.mp (hs.subset hx)
  rfl

theorem type_ticket_of_sublist_map {l : List SimilarTicketContext}
    {s : List SourceReference}
    (hs : List.Sublist s (l.map ticketRef)) : ∀ x ∈ s, x.type = SourceType.ticket := by
  intro x hx
  obtain ⟨a, _, rfl⟩ := List.mem_map.mp (hs.subset hx)
  rfl

/-! ### Claim theorems: context assembly -/

/-- C5: for every retrieved context and every assembly options value,
`assembleContext` returns `hasContext = false` iff its sources list is empty;
and on an empty `RetrievedContext` it returns `hasContext = false`, no
sources, and the canonical no-context sentinel text. -/
theorem claim_C5_hasContext_iff_sources (retrieved : RetrievedContext)
    (options : ContextAssemblyOptions) :
    ((assembleContext retrieved options).hasContext = false ↔
      (assembleContext retrieved options).sources = [])
    ∧ (retrieved.kbArticles = [] → retrieved.similarTickets = [] →
        assembleContext retrieved options =
          { systemContext := NO_CONTEXT_TEXT, sources := [], hasContext := false }) := by
  constructor
  · have hkb := assembleKbStep_parts_iff
      ((List.insertionSort kbSimGE retrieved.kbArticles).take options.maxKbArticles)
      options.maxContextLength
    have htk := assembleTicketStep_parts_iff
      ((List.insertionSort ticketSimGE retrieved.similarTickets).take options.maxTickets)
      options.maxContextLength
      (assembleKbStep
        ((List.insertionSort kbSimGE retrieved.kbArticles).take options.maxKbArticles)
        options.maxContextLength).2.2
    simp only [assembleContext]
    split_ifs with h
    · simp
    · rw [List.isEmpty_iff] at h
      constructor
      · intro hfalse; simp at hfalse
      · intro hsrc
        simp only [] at hsrc
        rcases List.append_eq_nil.mp hsrc with ⟨ha, hb⟩
        exact absurd (List.append_eq_nil.mpr ⟨hkb.mpr ha, htk.mpr hb⟩) h
  · intro h1 h2
    simp [assembleContext, h1, h2, assembleKbStep, assembleTicketStep]

/-- Witness for C5's empty-context clause at the empty retrieved context. -/
theorem claim_C5_hasContext_iff_sources_witness :
    assembleContext ⟨[], [], 0⟩ ({} : ContextAssemblyOptions) =
      { systemContext := NO_CONTEXT_TEXT, sources := [], hasContext := false } :=
  (claim_C5_hasContext_iff_sources ⟨[], [], 0⟩ ({} : ContextAssemblyOptions)).2 rfl rfl

/-- C7 counterexample: with one KB article of similarity `0.5` and one
similar ticket of similarity `0.9` (default options), the assembled sources
list is KB-first and thus not similarity-sorted across the whole list. -/
theorem claim_C7_counterexample :
    ¬ List.Sorted refSimGE
      ((assembleContext
        ⟨[⟨"a1", "A", "x", 0.5⟩], [⟨"t1", "T", [], none, 0.9⟩], 2⟩
        ({} : ContextAssemblyOptions)).sources) := by
  decide

/-- C7 (amended): the assembled sources list is the KB-article references
followed by the ticket references, each section separately sorted by
similarity in descending order; the whole list need not be sorted. -/
theorem claim_C7_sections_sorted (retrieved : RetrievedContext)
    (options : ContextAssemblyOptions) :
    ∃ kbPart ticketPart : List SourceReference,
      (assembleContext retrieved options).sources = kbPart ++ ticketPart
      ∧ (∀ s ∈ kbPart, s.type = SourceType.kb)
      ∧ (∀ s ∈ ticketPart, s.type = SourceType.ticket)
      ∧ List.Sorted refSimGE kbPart
      ∧ List.Sorted refSimGE ticketPart := by
  have hkbsub := assembleKbStep_sources_sublist
    ((List.insertionSort kbSimGE retrieved.kbArticles).take options.maxKbArticles)
    options.maxContextLength
  have htksub := assembleTicketStep_sources_sublist
    ((List.insertionSort ticketSimGE retrieved.similarTickets).take options.maxTickets)
    options.maxContextLength
    (assembleKbStep
      ((List.insertionSort kbSimGE retrieved.kbArticles).take options.maxKbArticles)
      options.maxContextLength).2.2
  have hkbsorted : List.Pairwise kbSimGE
      ((List.insertionSort kbSimGE retrieved.kbArticles).take options.maxKbArticles) :=
    List.Pairwise.sublist (List.take_sublist _ _)
      (List.sorted_insertionSort kbSimGE retrieved.kbArticles)
  have htksorted : List.Pairwise ticketSimGE
      ((List.insertionSort ticketSimGE retrieved.similarTickets).take options.maxTickets) :=
    List.Pairwise.sublist (List.take_sublist _ _)
      (List.sorted_insertionSort ticketSimGE retrieved.similarTickets)
  simp only [assembleContext]
  split_ifs with h
  · exact ⟨[], [], by simp, by simp, by simp, List.sorted_nil, List.sorted_nil⟩
  · refine ⟨_, _, rfl, ?_, ?_, ?_, ?_⟩
    · exact type_kb_of_sublist_map hkbsub
    · exact type_ticket_of_sublist_map htksub
    · exact sorted_refs_of_sublist_map_kb hkbsub hkbsorted
    · exact sorted_refs_of_sublist_map_ticket htksub htksorted

/-! ### Claim theorems: draft generation -/

/-- C3: when the completion provider throws (and fallback was not already
triggered, else the provider is never reached), `generateDraft` does not
propagate the exception: it returns a fallback `DraftOutput` with
`fallbackReason = generation_error`, `needsReview = true`, the
`generation_error` canned template as content, and the confidence score,
level and factors computed before the failure. -/
theorem claim_C3_error_fallback (context : AssembledContext) (msg e : String)
    (h : shouldUseFallback (draftConfidence context msg).score
      (draftTotalSources context) = false) :
    (generateDraft context msg (.error e)).isFallback = some true
    ∧ (generateDraft context msg (.error e)).fallbackReason =
        some FallbackReason.generation_error
    ∧ (generateDraft context msg (.error e)).needsReview = true
    ∧ (generateDraft context msg (.error e)).content =
        (FALLBACK_TEMPLATES .generation_error).1
    ∧ (generateDraft context msg (.error e)).confidenceScore =
        (draftConfidence context msg).score
    ∧ (generateDraft context msg (.error e)).confidenceLevel =
        (draftConfidence context msg).level
    ∧ (generateDraft context msg (.error e)).metadata.confidenceFactors =
        some (draftConfidence context msg).factors := by
  unfold generateDraft
  rw [if_neg (by simp [h])]
  exact ⟨rfl, rfl, rfl, rfl, rfl, rfl, rfl⟩

/-- Witness for C3 at a concrete five-source high-confidence context and a
throwing provider. -/
theorem claim_C3_error_fallback_witness :
    (generateDraft
      ⟨"ctx", [⟨.kb, "a", "A", 0.9⟩, ⟨.kb, "b", "B", 0.8⟩, ⟨.kb, "c", "C", 0.85⟩,
        ⟨.ticket, "t", "T", 0.7⟩, ⟨.ticket, "u", "U", 0.75⟩], true⟩
      "How do I reset my password for the admin console?"
      (.error "boom")).isFallback = some true
    ∧ (generateDraft
      ⟨"ctx", [⟨.kb, "a", "A", 0.9⟩, ⟨.kb, "b", "B", 0.8⟩, ⟨.kb, "c", "C", 0.85⟩,
        ⟨.ticket, "t", "T", 0.7⟩, ⟨.ticket, "u", "U", 0.75⟩], true⟩
      "How do I reset my password for the admin console?"
      (.error "boom")).fallbackReason = some FallbackReason.generation_error
    ∧ (generateDraft
      ⟨"ctx", [⟨.kb, "a", "A", 0.9⟩, ⟨.kb, "b", "B", 0.8⟩, ⟨.kb, "c", "C", 0.85⟩,
        ⟨.ticket, "t", "T", 0.7⟩, ⟨.ticket, "u", "U", 0.75⟩], true⟩
      "How do I reset my password for the admin console?"
      (.error "boom")).needsReview = true
    ∧ (generateDraft
      ⟨"ctx", [⟨.kb, "a", "A", 0.9⟩, ⟨.kb, "b", "B", 0.8⟩, ⟨.kb, "c", "C", 0.85⟩,
        ⟨.ticket, "t", "T", 0.7⟩, ⟨.ticket, "u", "U", 0.75⟩], true⟩
      "How do I reset my password for the admin console?"
      (.error "boom")).content = (FALLBACK_TEMPLATES .generation_error).1 := by
  have h := claim_C3_error_fallback
    ⟨"ctx", [⟨.kb, "a", "A", 0.9⟩, ⟨.kb, "b", "B", 0.8⟩, ⟨.kb, "c", "C", 0.85⟩,
      ⟨.ticket, "t", "T", 0.7⟩, ⟨.ticket, "u", "U", 0.75⟩], true⟩
    "How do I reset my password for the admin console?" "boom" (by decide)
  exact ⟨h.1, h.2.1, h.2.2.1, h.2.2.2.1⟩

/-- C10: when the assembled context has zero sources, the relevance,
coverage and context-match factors are all `0`, so the score is at most
`0.15` (only the `0.15`-weighted clarity can contribute), below the `0.30`
absolute floor; hence `shouldUseFallback` fires and `generateDraft` returns
the fallback output without consuming the completion at all. -/
theorem claim_C10_empty_sources_fallback (context : AssembledContext)
    (msg : String) (h : context.sources = []) :
    (draftConfidence context msg).factors.sourceRelevance = 0
    ∧ (draftConfidence context msg).factors.sourceCoverage = 0
    ∧ (draftConfidence context msg).factors.contextMatch = 0
    ∧ (draftConfidence context msg).score ≤ 0.15
    ∧ (draftConfidence context msg).score < 0.3
    ∧ shouldUseFallback (draftConfidence context msg).score
        (draftTotalSources context) = true
    ∧ (∀ c₁ c₂ : Except String CompletionResult,
        generateDraft context msg c₁ = generateDraft context msg c₂)
    ∧ (∀ c : Except String CompletionResult,
        (generateDraft context msg c).isFallback = some true) := by
  have hconf : draftConfidence context msg =
      calculateConfidence ⟨[], msg.length, 0, 0⟩ := by
    simp [draftConfidence, draftKbSources, draftTicketSources, h]
  have hq := queryClarity_bounds msg.length
  have hscore : (draftConfidence context msg).score =
      max 0 (min 1 (0 * SOURCE_RELEVANCE_WEIGHT + 0 * SOURCE_COVERAGE_WEIGHT +
        calculateQueryClarity msg.length * QUERY_CLARITY_WEIGHT +
        0 * CONTEXT_MATCH_WEIGHT)) := by
    rw [hconf]; rfl
  have hle : (draftConfidence context msg).score ≤ 0.15 := by
    rw [hscore]
    refine max_le (by norm_num) (le_trans (min_le_right _ _) ?_)
    unfold QUERY_CLARITY_WEIGHT SOURCE_RELEVANCE_WEIGHT SOURCE_COVERAGE_WEIGHT
      CONTEXT_MATCH_WEIGHT
    nlinarith [hq.1, hq.2]
  have hlt : (draftConfidence context msg).score < 0.3 :=
    lt_of_le_of_lt hle (by norm_num)
  have hfb : shouldUseFallback (draftConfidence context msg).score
      (draftTotalSources context) = true := by
    unfold shouldUseFallback MIN_CONFIDENCE_ABSOLUTE
    rw [if_pos hlt]
  refine ⟨by rw [hconf]; rfl, by rw [hconf]; rfl, by rw [hconf]; rfl,
    hle, hlt, hfb, ?_, ?_⟩
  · intro c₁ c₂
    simp only [generateDraft]
    rw [if_pos hfb, if_pos hfb]
  · intro c
    simp only [generateDraft]
    rw [if_pos hfb]

/-- Witness for C10 at the empty assembled context. -/
theorem claim_C10_empty_sources_fallback_witness :
    shouldUseFallback (draftConfidence ⟨"", [], false⟩ "hello").score
      (draftTotalSources ⟨"", [], false⟩) = true
    ∧ (generateDraft ⟨"", [], false⟩ "hello"
        (.ok ⟨"draft text", "gpt", 1, 1, 2⟩)).isFallback = some true := by
  have h := claim_C10_empty_sources_fallback ⟨"", [], false⟩ "hello" rfl
  exact ⟨h.2.2.2.2.2.1, h.2.2.2.2.2.2.2 _⟩

/-! ### Character-level lemmas for the matcher -/

theorem char_ofNat_toNat {n : ℕ} (h : n.isValidChar) : (Char.ofNat n).toNat = n := by
  unfold Char.ofNat
  rw [dif_pos h]
  unfold Char.ofNatAux Char.toNat
  simp [UInt32.toNat, BitVec.toNat_ofNatLt]

theorem eq_space_of_toLower_eq_space {c : Char} (h : c.toLower = ' ') : c = ' ' := by
  by_cases hc : c.toNat ≥ 65 ∧ c.toNat ≤ 90
  · exfalso
    have hshift : c.toLower.toNat = c.toNat + 32 := by
      unfold Char.toLower
      rw [if_pos hc]
      exact char_ofNat_toNat (Or.inl (by omega))
    rw [h] at hshift
    have h32 : (' ' : Char).toNat = 32 := rfl
    omega
  · unfold Char.toLower at h
    rw [if_neg hc] at h
    exact h

theorem toLower_self_of_isJsSpace {c : Char} (h : isJsSpace c = true) : c.toLower = c := by
  by_cases hc : c.toNat ≥ 65 ∧ c.toNat ≤ 90
  · exfalso
    unfold isJsSpace at h
    simp only [Bool.or_eq_true, Bool.and_eq_true, decide_eq_true_eq] at h
    omega
  · unfold Char.toLower
    exact if_neg hc

theorem map_toLower_singleton {x : List Char} {c : Char}
    (h : x.map Char.toLower = [c]) : ∃ d, x = [d] ∧ d.toLower = c := by
  cases x with
  | nil => simp at h
  | cons d t =>
    simp only [List.map_cons, List.cons.injEq] at h
    obtain ⟨h1, h2⟩ := h
    exact ⟨d, by rw [List.map_eq_nil_iff.mp h2], h1⟩

/-! ### Matcher lemmas: a successful parse path gives a match -/

theorem litRun_ci (cs : List Char) :
    ∀ (s rest : List Char) (prev : Option Char) k,
      s.map Char.toLower = cs.map Char.toLower →
      litRun cs prev (s ++ rest) k = k (lastCtx prev s) rest := by
  induction cs with
  | nil =>
    intro s rest prev k h
    simp only [List.map_nil] at h
    have hs : s = [] := List.map_eq_nil_iff.mp h
    subst hs
    rfl
  | cons c cs' ih =>
    intro s rest prev k h
    cases s with
    | nil => simp at h
    | cons d s' =>
      simp only [List.map_cons, List.cons.injEq] at h
      obtain ⟨h1, h2⟩ := h
      simp only [List.cons_append, litRun, if_pos h1]
      exact ih s' rest (some d) k h2

theorem repRun_isSome (p : Char → Bool) :
    ∀ (run rest : List Char) (prev : Option Char) (lo : ℕ) k,
      lo ≤ run.length →
      (∀ c ∈ run, p c = true) →
      (k (lastCtx prev run) rest).isSome = true →
      (repRun p lo none prev (run ++ rest) k).isSome = true := by
  intro run
  induction run with
  | nil =>
    intro rest prev lo k hlo hall hk
    have hlo0 : lo = 0 := Nat.le_zero.mp hlo
    subst hlo0
    cases rest with
    | nil => simpa [repRun] using hk
    | cons c r' =>
      by_cases hpc : p c = true
      · simp only [List.nil_append, repRun, hpc, Bool.and_true]
        cases hrec : repRun p (0 - 1) (Option.map (· - 1) none) (some c) r' k with
        | some v => simp
        | none => simpa using hk
      · simp only [List.nil_append, repRun, Bool.eq_false_iff.mpr hpc, Bool.and_false,
          if_false]
        simpa using hk
  | cons c run' ih =>
    intro rest prev lo k hlo hall hk
    have hpc : p c = true := hall c (List.mem_cons_self c run')
    have hrec := ih rest (some c) (lo - 1) k
      (by simp only [List.length_cons] at hlo; omega)
      (fun x hx => hall x (List.mem_cons_of_mem _ hx)) hk
    simp only [List.cons_append, repRun, hpc, Bool.and_true]
    obtain ⟨v, hv⟩ := Option.isSome_iff_exists.mp hrec
    simp only [Option.map_none', if_true, List.append_eq]
    rw [hv]
    simp

theorem mrun_alt_isSome {a b : Rx} {prev : Option Char} {s : List Char} {k}
    (h : (mrun a prev s k).isSome = true ∨ (mrun b prev s k).isSome = true) :
    (mrun (.alt a b) prev s k).isSome = true := by
  rcases h with h | h
  · obtain ⟨v, hv⟩ := Option.isSome_iff_exists.mp h
    simp [mrun, hv]
  · cases ha : mrun a prev s k with
    | some v => simp [mrun, ha]
    | none => simpa [mrun, ha] using h

theorem mrun_opt_isSome {a : Rx} {prev : Option Char} {s : List Char} {k}
    (h : (mrun a prev s k).isSome = true) :
    (mrun (.opt a) prev s k).isSome = true := by
  obtain ⟨v, hv⟩ := Option.isSome_iff_exists.mp h
  simp [mrun, hv]

theorem searchFrom_isSome_of_matchHere (rx : Rx) :
    ∀ (pre suf : List Char) (pos : ℕ) (prev : Option Char),
      (matchHere rx (lastCtx prev pre) suf).isSome = true →
      (searchFrom rx pos prev (pre ++ suf)).isSome = true := by
  intro pre
  induction pre with
  | nil =>
    intro suf pos prev h
    have h' : (matchHere rx prev suf).isSome = true := h
    obtain ⟨v, hv⟩ := Option.isSome_iff_exists.mp h'
    obtain ⟨p', rest⟩ := v
    cases suf with
    | nil => simp only [List.nil_append, searchFrom, hv, Option.isSome_some]
    | cons c s' => simp only [List.nil_append, searchFrom, hv, Option.isSome_some]
  | cons c pre' ih =>
    intro suf pos prev h
    have hrec := ih suf (pos + 1) (some c) h
    cases hm : matchHere rx prev (c :: (pre' ++ suf)) with
    | some v =>
      obtain ⟨p', rest⟩ := v
      simp only [List.cons_append, searchFrom, List.append_eq, hm, Option.isSome_some]
    | none =>
      simp only [List.cons_append, searchFrom, List.append_eq, hm]
      exact hrec

theorem mrun_seq (a b : Rx) (prev : Option Char) (s : List Char) (k) :
    mrun (.seq a b) prev s k = mrun a prev s (fun p' s' => mrun b p' s' k) := rfl

theorem mrun_lit (cs : List Char) (prev : Option Char) (s : List Char) (k) :
    mrun (.lit cs) prev s k = litRun cs prev s k := rfl

theorem mrun_rep (p : Char → Bool) (lo : ℕ) (hi : Option ℕ) (prev : Option Char)
    (s : List Char) (k) :
    mrun (.repCls p lo hi) prev s k = repRun p lo hi prev s k := rfl

theorem map_eq_append_split {α β : Type} (f : α → β) :
    ∀ (l : List α) (l1 l2 : List β), l.map f = l1 ++ l2 →
      ∃ s1 s2, l = s1 ++ s2 ∧ s1.map f = l1 ∧ s2.map f = l2 := by
  intro l l1
  induction l1 generalizing l with
  | nil =>
    intro l2 h
    exact ⟨[], l, rfl, rfl, h⟩
  | cons b t ih =>
    intro l2 h
    cases l with
    | nil => simp at h
    | cons a l' =>
      simp only [List.map_cons, List.cons_append, List.cons.injEq] at h
      obtain ⟨hb, ht⟩ := h
      obtain ⟨s1, s2, he, hm1, hm2⟩ := ih l' l2 ht
      exact ⟨a :: s1, s2, by rw [he]; rfl, by simp [hm1, hb], hm2⟩

theorem map_eq_cons_split {α β : Type} (f : α → β) (l : List α) (b : β) (l2 : List β)
    (h : l.map f = b :: l2) : ∃ a t, l = a :: t ∧ f a = b ∧ t.map f = l2 := by
  cases l with
  | nil => simp at h
  | cons a t =>
    simp only [List.map_cons, List.cons.injEq] at h
    exact ⟨a, t, rfl, h.1, h.2⟩

/-- A string whose lowercasing is `"ignore previous instructions"` splits
into the three case-insensitive words separated by single spaces. -/
theorem ignore_phrase_decomp (s : List Char)
    (h : s.map Char.toLower = "ignore previous instructions".data) :
    ∃ u1 u3 u5 d, s = u1 ++ (' ' :: (u3 ++ (' ' :: (u5 ++ [d])))) ∧
      u1.map Char.toLower = "ignore".data ∧
      u3.map Char.toLower = "previous".data ∧
      u5.map Char.toLower = "instruction".data ∧ d.toLower = 's' := by
  have h' : s.map Char.toLower =
      "ignore".data ++ (' ' :: ("previous".data ++ (' ' :: ("instruction".data ++ ['s'])))) := by
    rw [h]; rfl
  obtain ⟨u1, r1, he1, hm1, hr1⟩ := map_eq_append_split Char.toLower s "ignore".data _ h'
  obtain ⟨c2, r2, he2, hc2, hr2⟩ := map_eq_cons_split Char.toLower r1 ' ' _ hr1
  obtain ⟨u3, r3, he3, hm3, hr3⟩ := map_eq_append_split Char.toLower r2 "previous".data _ hr2
  obtain ⟨c4, r4, he4, hc4, hr4⟩ := map_eq_cons_split Char.toLower r3 ' ' _ hr3
  obtain ⟨u5, r5, he5, hm5, hr5⟩ := map_eq_append_split Char.toLower r4 "instruction".data _ hr4
  obtain ⟨d, t, he6, hd, ht⟩ := map_eq_cons_split Char.toLower r5 's' _ hr5
  have ht' : t = [] := List.map_eq_nil_iff.mp ht
  have hc2' : c2 = ' ' := eq_space_of_toLower_eq_space hc2
  have hc4' : c4 = ' ' := eq_space_of_toLower_eq_space hc4
  subst ht' hc2' hc4' he6 he5 he4 he3 he2 he1
  exact ⟨u1, u3, u5, d, rfl, hm1, hm3, hm5, hd⟩

/-- `IGNORE_INSTRUCTIONS_RX` matches at the start of any input beginning
with a case-insensitive rendering of `"ignore previous instructions"`
(single spaces), via the `previous\s+` alternative of the optional group. -/
theorem ignore_matchHere_isSome (u1 u3 u5 : List Char) (d : Char) (rest : List Char)
    (h1 : u1.map Char.toLower = "ignore".data)
    (h3 : u3.map Char.toLower = "previous".data)
    (h5 : u5.map Char.toLower = "instruction".data)
    (hd : d.toLower = 's') (prev : Option Char) :
    (matchHere IGNORE_INSTRUCTIONS_RX prev
      (u1 ++ (' ' :: (u3 ++ (' ' :: (u5 ++ (d :: rest))))))).isSome = true := by
  have htail : ∀ (p : Option Char),
      (mrun (.seq (.lit "instruction".data) (.opt (.lit "s".data))) p
        (u5 ++ (d :: rest)) (fun p' s' => some (p', s'))).isSome = true := by
    intro p
    rw [mrun_seq, mrun_lit]
    rw [litRun_ci "instruction".data u5 (d :: rest) p _ (by rw [h5]; decide)]
    apply mrun_opt_isSome
    rw [mrun_lit]
    have heq : litRun "s".data (lastCtx p u5) (d :: rest) (fun p' s' => some (p', s')) =
        (fun p' s' => some (p', s')) (lastCtx (lastCtx p u5) [d]) rest :=
      litRun_ci "s".data [d] rest (lastCtx p u5) _ (by
        rw [show [d].map Char.toLower = [d.toLower] from rfl, hd]; decide)
    rw [heq]
    rfl
  have hprevword : ∀ (p : Option Char),
      (mrun (.seq (.lit "previous".data) spacesPlus) p
        (u3 ++ (' ' :: (u5 ++ (d :: rest))))
        (fun p3 s3 => mrun (.seq (.lit "instruction".data) (.opt (.lit "s".data))) p3 s3
          (fun p' s' => some (p', s')))).isSome = true := by
    intro p
    rw [mrun_seq, mrun_lit]
    rw [litRun_ci "previous".data u3 (' ' :: (u5 ++ (d :: rest))) p _ (by rw [h3]; decide)]
    simp only []
    unfold spacesPlus
    rw [mrun_rep]
    exact repRun_isSome isJsSpace [' '] (u5 ++ (d :: rest)) (lastCtx p u3) 1 _
      (by decide) (by decide) (htail (some ' '))
  have hopt : ∀ (p : Option Char),
      (mrun (.seq (.opt (.alt (.seq (.lit "all".data) spacesPlus)
            (.alt (.seq (.lit "previous".data) spacesPlus)
              (.alt (.seq (.lit "your".data) spacesPlus)
                (.seq (.lit "the".data) spacesPlus)))))
          (.seq (.lit "instruction".data) (.opt (.lit "s".data)))) p
        (u3 ++ (' ' :: (u5 ++ (d :: rest)))) (fun p' s' => some (p', s'))).isSome = true := by
    intro p
    rw [mrun_seq]
    apply mrun_opt_isSome
    apply mrun_alt_isSome
    right
    apply mrun_alt_isSome
    left
    exact hprevword p
  unfold matchHere IGNORE_INSTRUCTIONS_RX
  rw [mrun_seq, mrun_lit]
  rw [litRun_ci "ignore".data u1 (' ' :: (u3 ++ (' ' :: (u5 ++ (d :: rest))))) prev _
    (by rw [h1]; decide)]
  simp only []
  rw [mrun_seq]
  unfold spacesPlus
  rw [mrun_rep]
  exact repRun_isSome isJsSpace [' '] (u3 ++ (' ' :: (u5 ++ (d :: rest))))
    (lastCtx prev u1) 1 _ (by decide) (by decide) (hopt (some ' '))

/-- If the first pattern's regex finds a match in a nonempty text, the
detector reports `ignore_instructions` among the fired pattern names. -/
theorem detect_contains_ignore (text : List Char) (hne : ¬ text.isEmpty = true)
    (h : (searchFrom IGNORE_INSTRUCTIONS_RX 0 none text).isSome = true) :
    (detectPromptInjection text).patterns.contains "ignore_instructions" = true := by
  obtain ⟨v, hv⟩ := Option.isSome_iff_exists.mp h
  obtain ⟨st, len, p', rst⟩ := v
  simp only [detectPromptInjection, if_neg hne, PROMPT_INJECTION_PATTERNS,
    List.filterMap_cons, hv]
  simp

theorem length_pos_filter_iff {α : Type} (q : α → Bool) (l : List α) :
    0 < (l.filter q).length ↔ ∃ x ∈ l, q x = true := by
  induction l with
  | nil => simp
  | cons a t ih =>
    cases hq : q a <;> simp [List.filter_cons, hq, ih]

theorem risk_beq_high_iff (r : Risk) : (r == Risk.high) = true ↔ r = Risk.high := by
  cases r <;> decide

theorem risk_beq_medium_iff (r : Risk) : (r == Risk.medium) = true ↔ r = Risk.medium := by
  cases r <;> decide

theorem high_filter_pos_iff (ir : PromptInjectionResult) :
    0 < (PROMPT_INJECTION_PATTERNS.filter (fun p =>
        p.risk == Risk.high && ir.patterns.contains p.name)).length ↔
      ∃ p ∈ PROMPT_INJECTION_PATTERNS, p.risk = Risk.high ∧
        ir.patterns.contains p.name = true := by
  rw [length_pos_filter_iff]
  constructor
  · rintro ⟨x, hx, hq⟩
    rw [Bool.and_eq_true] at hq
    exact ⟨x, hx, (risk_beq_high_iff _).mp hq.1, hq.2⟩
  · rintro ⟨x, hx, hr, hc⟩
    exact ⟨x, hx, by rw [Bool.and_eq_true]; exact ⟨(risk_beq_high_iff _).mpr hr, hc⟩⟩

theorem medium_filter_pos_iff (ir : PromptInjectionResult) :
    0 < (PROMPT_INJECTION_PATTERNS.filter (fun p =>
        p.risk == Risk.medium && ir.patterns.contains p.name)).length ↔
      ∃ p ∈ PROMPT_INJECTION_PATTERNS, p.risk = Risk.medium ∧
        ir.patterns.contains p.name = true := by
  rw [length_pos_filter_iff]
  constructor
  · rintro ⟨x, hx, hq⟩
    rw [Bool.and_eq_true] at hq
    exact ⟨x, hx, (risk_beq_medium_iff _).mp hq.1, hq.2⟩
  · rintro ⟨x, hx, hr, hc⟩
    exact ⟨x, hx, by rw [Bool.and_eq_true]; exact ⟨(risk_beq_medium_iff _).mpr hr, hc⟩⟩

theorem contains_iff_mem_str (l : List String) (a : String) :
    l.contains a = true ↔ a ∈ l := by simp

theorem low_flag_iff (flags : List String) :
    (flags.any (fun f => (["control_characters", "invisible_characters",
        "excessive_whitespace"] : List String).contains f) = true ∨
      flags.contains "truncated" = true) ↔
    ∃ f ∈ flags, f = "control_characters" ∨ f = "invisible_characters" ∨
      f = "excessive_whitespace" ∨ f = "truncated" := by
  simp only [List.any_eq_true, contains_iff_mem_str, List.mem_cons,
    List.mem_singleton, List.not_mem_nil, or_false]
  constructor
  · rintro (⟨f, hf, hc⟩ | hc)
    · exact ⟨f, hf, by tauto⟩
    · exact ⟨"truncated", hc, by tauto⟩
  · rintro ⟨f, hf, (h | h | h | h)⟩
    · exact Or.inl ⟨f, hf, by tauto⟩
    · exact Or.inl ⟨f, hf, by tauto⟩
    · exact Or.inl ⟨f, hf, by tauto⟩
    · subst h; exact Or.inr hf

/-- The four-way characterization of `calculateRiskLevel`. -/
theorem calculateRiskLevel_spec (ir : PromptInjectionResult) (flags : List String) :
    (calculateRiskLevel ir flags = .high ↔
      ∃ p ∈ PROMPT_INJECTION_PATTERNS, p.risk = Risk.high ∧
        ir.patterns.contains p.name = true) ∧
    (calculateRiskLevel ir flags = .medium ↔
      (¬ ∃ p ∈ PROMPT_INJECTION_PATTERNS, p.risk = Risk.high ∧
        ir.patterns.contains p.name = true) ∧
      ∃ p ∈ PROMPT_INJECTION_PATTERNS, p.risk = Risk.medium ∧
        ir.patterns.contains p.name = true) ∧
    (calculateRiskLevel ir flags = .low ↔
      (¬ ∃ p ∈ PROMPT_INJECTION_PATTERNS, p.risk = Risk.high ∧
        ir.patterns.contains p.name = true) ∧
      (¬ ∃ p ∈ PROMPT_INJECTION_PATTERNS, p.risk = Risk.medium ∧
        ir.patterns.contains p.name = true) ∧
      ∃ f ∈ flags, f = "control_characters" ∨ f = "invisible_characters" ∨
        f = "excessive_whitespace" ∨ f = "truncated") ∧
    (calculateRiskLevel ir flags = .none ↔
      (¬ ∃ p ∈ PROMPT_INJECTION_PATTERNS, p.risk = Risk.high ∧
        ir.patterns.contains p.name = true) ∧
      (¬ ∃ p ∈ PROMPT_INJECTION_PATTERNS, p.risk = Risk.medium ∧
        ir.patterns.contains p.name = true) ∧
      ¬ ∃ f ∈ flags, f = "control_characters" ∨ f = "invisible_characters" ∨
        f = "excessive_whitespace" ∨ f = "truncated") := by
  simp only [calculateRiskLevel]
  by_cases hHI : ∃ p ∈ PROMPT_INJECTION_PATTERNS, p.risk = Risk.high ∧
      ir.patterns.contains p.name = true
  · rw [if_pos ((high_filter_pos_iff ir).mpr hHI)]
    exact ⟨iff_of_true rfl hHI, iff_of_false (by decide) (fun hc => hc.1 hHI),
      iff_of_false (by decide) (fun hc => hc.1 hHI),
      iff_of_false (by decide) (fun hc => hc.1 hHI)⟩
  · rw [if_neg (fun hc => hHI ((high_filter_pos_iff ir).mp hc))]
    by_cases hMED : ∃ p ∈ PROMPT_INJECTION_PATTERNS, p.risk = Risk.medium ∧
        ir.patterns.contains p.name = true
    · rw [if_pos ((medium_filter_pos_iff ir).mpr hMED)]
      exact ⟨iff_of_false (by decide) hHI, iff_of_true rfl ⟨hHI, hMED⟩,
        iff_of_false (by decide) (fun hc => hc.2.1 hMED),
        iff_of_false (by decide) (fun hc => hc.2.1 hMED)⟩
    · rw [if_neg (fun hc => hMED ((medium_filter_pos_iff ir).mp hc))]
      by_cases hLOW : ∃ f ∈ flags, f = "control_characters" ∨
          f = "invisible_characters" ∨ f = "excessive_whitespace" ∨ f = "truncated"
      · by_cases hany : flags.any (fun f => (["control_characters",
            "invisible_characters", "excessive_whitespace"] : List String).contains f) = true
        · rw [if_pos hany]
          exact ⟨iff_of_false (by decide) hHI,
            iff_of_false (by decide) (fun hc => hMED hc.2),
            iff_of_true rfl ⟨hHI, hMED, hLOW⟩,
            iff_of_false (by decide) (fun hc => hc.2.2 hLOW)⟩
        · have htr : flags.contains "truncated" = true := by
            rcases (low_flag_iff flags).mpr hLOW with hc | hc
            · exact absurd hc hany
            · exact hc
          rw [if_neg hany, if_pos htr]
          exact ⟨iff_of_false (by decide) hHI,
            iff_of_false (by decide) (fun hc => hMED hc.2),
            iff_of_true rfl ⟨hHI, hMED, hLOW⟩,
            iff_of_false (by decide) (fun hc => hc.2.2 hLOW)⟩
      · have hany : ¬ flags.any (fun f => (["control_characters",
            "invisible_characters", "excessive_whitespace"] : List String).contains f) = true :=
          fun hc => hLOW ((low_flag_iff flags).mp (Or.inl hc))
        have htr : ¬ flags.contains "truncated" = true :=
          fun hc => hLOW ((low_flag_iff flags).mp (Or.inr hc))
        rw [if_neg hany, if_neg htr]
        exact ⟨iff_of_false (by decide) hHI,
          iff_of_false (by decide) (fun hc => hMED hc.2),
          iff_of_false (by decide) (fun hc => hLOW hc.2.2),
          iff_of_true rfl ⟨hHI, hMED, hLOW⟩⟩

/-- C4: `sanitizeInput`'s risk level is `high` iff a high-risk injection
pattern fired; else `medium` iff a medium-risk pattern fired; else `low`
iff a low-risk sanitization flag (control characters, invisible
characters, excessive whitespace, or truncation) was raised; else `none`;
the input is blocked iff the risk level is `high`; and every text
containing `"ignore previous instructions"` case-insensitively is rated
`high` and blocked. -/
theorem claim_C4_risk_level_and_blocking (text : List Char) :
    ((sanitizeInput text).riskLevel = .high ↔
      ∃ p ∈ PROMPT_INJECTION_PATTERNS, p.risk = Risk.high ∧
        (detectPromptInjection text).patterns.contains p.name = true) ∧
    ((sanitizeInput text).riskLevel = .medium ↔
      (¬ ∃ p ∈ PROMPT_INJECTION_PATTERNS, p.risk = Risk.high ∧
        (detectPromptInjection text).patterns.contains p.name = true) ∧
      ∃ p ∈ PROMPT_INJECTION_PATTERNS, p.risk = Risk.medium ∧
        (detectPromptInjection text).patterns.contains p.name = true) ∧
    ((sanitizeInput text).riskLevel = .low ↔
      (¬ ∃ p ∈ PROMPT_INJECTION_PATTERNS, p.risk = Risk.high ∧
        (detectPromptInjection text).patterns.contains p.name = true) ∧
      (¬ ∃ p ∈ PROMPT_INJECTION_PATTERNS, p.risk = Risk.medium ∧
        (detectPromptInjection text).patterns.contains p.name = true) ∧
      ∃ f ∈ sanitizeFlags text, f = "control_characters" ∨
        f = "invisible_characters" ∨ f = "excessive_whitespace" ∨ f = "truncated") ∧
    ((sanitizeInput text).riskLevel = .none ↔
      (¬ ∃ p ∈ PROMPT_INJECTION_PATTERNS, p.risk = Risk.high ∧
        (detectPromptInjection text).patterns.contains p.name = true) ∧
      (¬ ∃ p ∈ PROMPT_INJECTION_PATTERNS, p.risk = Risk.medium ∧
        (detectPromptInjection text).patterns.contains p.name = true) ∧
      ¬ ∃ f ∈ sanitizeFlags text, f = "control_characters" ∨
        f = "invisible_characters" ∨ f = "excessive_whitespace" ∨ f = "truncated") ∧
    (shouldBlockInput (sanitizeInput text) = true ↔
      (sanitizeInput text).riskLevel = .high) ∧
    (∀ pre s post : List Char, text = pre ++ s ++ post →
      s.map Char.toLower = "ignore previous instructions".data →
      (sanitizeInput text).riskLevel = .high ∧
      shouldBlockInput (sanitizeInput text) = true) := by
  by_cases hemp : text.isEmpty = true
  · have htext : text = [] := by
      cases text with
      | nil => rfl
      | cons c t => simp [List.isEmpty] at hemp
    subst htext
    refine ⟨by decide, by decide, by decide, by decide, by decide, ?_⟩
    intro pre s post heq hphrase
    exfalso
    have hsnil : s = [] := by
      have h0 : pre ++ s ++ post = [] := heq.symm
      simp only [List.append_eq_nil] at h0
      exact h0.1.2
    rw [hsnil] at hphrase
    simp at hphrase
  · have hrl : (sanitizeInput text).riskLevel =
        calculateRiskLevel (detectPromptInjection text) (sanitizeFlags text) := by
      unfold sanitizeInput
      rw [if_neg hemp]
    obtain ⟨S1, S2, S3, S4⟩ :=
      calculateRiskLevel_spec (detectPromptInjection text) (sanitizeFlags text)
    have hblock : shouldBlockInput (sanitizeInput text) = true ↔
        (sanitizeInput text).riskLevel = .high := by
      unfold shouldBlockInput
      cases h : (sanitizeInput text).riskLevel <;> simp [h] <;> decide
    refine ⟨by rw [hrl]; exact S1, by rw [hrl]; exact S2, by rw [hrl]; exact S3,
      by rw [hrl]; exact S4, hblock, ?_⟩
    intro pre s post heq hphrase
    obtain ⟨u1, u3, u5, d, hs, h1, h3, h5, hd⟩ := ignore_phrase_decomp s hphrase
    have hshape : pre ++ s ++ post =
        pre ++ (u1 ++ (' ' :: (u3 ++ (' ' :: (u5 ++ (d :: post)))))) := by
      subst hs; simp
    have hsearch : (searchFrom IGNORE_INSTRUCTIONS_RX 0 none text).isSome = true := by
      rw [heq, hshape]
      exact searchFrom_isSome_of_matchHere IGNORE_INSTRUCTIONS_RX pre
        (u1 ++ (' ' :: (u3 ++ (' ' :: (u5 ++ (d :: post)))))) 0 none
        (ignore_matchHere_isSome u1 u3 u5 d post h1 h3 h5 hd (lastCtx none pre))
    have hcont := detect_contains_ignore text hemp hsearch
    have hHI : ∃ p ∈ PROMPT_INJECTION_PATTERNS, p.risk = Risk.high ∧
        (detectPromptInjection text).patterns.contains p.name = true :=
      ⟨⟨"ignore_instructions", IGNORE_INSTRUCTIONS_RX, Risk.high⟩,
        by unfold PROMPT_INJECTION_PATTERNS; exact List.mem_cons_self _ _,
        rfl, hcont⟩
    have hhigh : (sanitizeInput text).riskLevel = .high := by
      rw [hrl]; exact S1.mpr hHI
    exact ⟨hhigh, hblock.mpr hhigh⟩

/-- C9 counterexample: `"a   b"` (three inner spaces) has no control or
invisible characters, is under the length cap, and matches no injection
pattern, yet `sanitizeInput` reports `wasModified = true` (the excessive
whitespace is collapsed) with risk level `low`, not `none`. -/
theorem claim_C9_counterexample :
    (∀ c ∈ "a   b".data, isCtrlChar c = false) ∧
    (∀ c ∈ "a   b".data, isInvisibleChar c = false) ∧
    "a   b".data.length ≤ MAX_INPUT_LENGTH ∧
    (detectPromptInjection "a   b".data).detected = false ∧
    (sanitizeInput "a   b".data).wasModified = true ∧
    (sanitizeInput "a   b".data).riskLevel = RiskLevel.low := by decide

/-- When no injection pattern fired, the detector's pattern list is empty. -/
theorem detect_patterns_nil (text : List Char)
    (hdet : (detectPromptInjection text).detected = false) :
    (detectPromptInjection text).patterns = [] := by
  simp only [detectPromptInjection] at hdet ⊢
  by_cases he : text.isEmpty = true
  · rw [if_pos he]
  · rw [if_neg he] at hdet ⊢
    cases hR : PROMPT_INJECTION_PATTERNS.filterMap (fun p =>
        match searchFrom p.pattern 0 none text with
        | some (st, len, _, _) => some (p.name, (text.drop st).take len)
        | none => none) with
    | nil => simp [hR]
    | cons a t =>
      rw [hR] at hdet
      simp at hdet

/-- C9 (amended): with the added hypotheses that whitespace normalization
and trimming leave the text unchanged, `sanitizeInput` reports no
modification and risk level `none`. -/
theorem claim_C9_no_modification (text : List Char)
    (hctrl : ∀ c ∈ text, isCtrlChar c = false)
    (hinv : ∀ c ∈ text, isInvisibleChar c = false)
    (hlen : text.length ≤ MAX_INPUT_LENGTH)
    (hdet : (detectPromptInjection text).detected = false)
    (hws : normalizeWhitespace text = text)
    (htrim : jsTrim text = text) :
    (sanitizeInput text).wasModified = false ∧
    (sanitizeInput text).riskLevel = RiskLevel.none := by
  by_cases hemp : text.isEmpty = true
  · unfold sanitizeInput
    rw [if_pos hemp]
    exact ⟨rfl, rfl⟩
  · have h1 : removeControlChars text = text := by
      unfold removeControlChars
      apply List.filter_eq_self.mpr
      intro a ha
      simp [hctrl a ha]
    have h2 : removeInvisibleChars text = text := by
      unfold removeInvisibleChars
      apply List.filter_eq_self.mpr
      intro a ha
      simp [hinv a ha]
    have hnl : ¬ text.length > MAX_INPUT_LENGTH := not_lt.mpr hlen
    have hmod : sanitizeModified text = false := by
      simp [sanitizeModified, h1, h2, hws, htrim, hnl]
    have hpat : (detectPromptInjection text).patterns = [] := detect_patterns_nil text hdet
    have hflags : sanitizeFlags text = [] := by
      simp [sanitizeFlags, h1, h2, hws, htrim, hpat, hnl]
    have hrisk : (sanitizeInput text).riskLevel = RiskLevel.none := by
      unfold sanitizeInput
      rw [if_neg hemp]
      show calculateRiskLevel (detectPromptInjection text) (sanitizeFlags text) =
        RiskLevel.none
      rw [hflags]
      obtain ⟨_, _, _, S4⟩ := calculateRiskLevel_spec (detectPromptInjection text) []
      apply S4.mpr
      refine ⟨?_, ?_, ?_⟩
      · rintro ⟨p, _, _, hcont⟩
        rw [hpat] at hcont
        exact Bool.false_ne_true hcont
      · rintro ⟨p, _, _, hcont⟩
        rw [hpat] at hcont
        exact Bool.false_ne_true hcont
      · rintro ⟨f, hf, _⟩
        exact absurd hf (List.not_mem_nil f)
    have hwm : (sanitizeInput text).wasModified = false := by
      unfold sanitizeInput
      rw [if_neg hemp]
      exact hmod
    exact ⟨hwm, hrisk⟩

/-- Witness for the amended C9 at `"hello"`. -/
theorem claim_C9_no_modification_witness :
    (sanitizeInput "hello".data).wasModified = false ∧
    (sanitizeInput "hello".data).riskLevel = RiskLevel.none :=
  claim_C9_no_modification "hello".data (by decide) (by decide) (by decide)
    (by decide) (by decide) (by decide)

/-- C8 counterexample: redaction with type labels is not idempotent. In
`"a.1234567890123.b@c.de9x_123-45-6789"` the email, credit-card and phone
matches overlap, and the trailing `123-45-6789` is preceded by the word
character `_`, so no SSN match fires (`\b` fails) and the first redaction
leaves `"[EMAIL]123-45-6789"`; in that output the digits follow `]`, the
SSN pattern now matches, and the second redaction gives
`"[EMAIL][SSN]"`. -/
theorem claim_C8_counterexample :
    redactForLogging "a.1234567890123.b@c.de9x_123-45-6789" = "[EMAIL]123-45-6789" ∧
    redactForLogging (redactForLogging "a.1234567890123.b@c.de9x_123-45-6789") =
      "[EMAIL][SSN]" ∧
    redactForLogging (redactForLogging "a.1234567890123.b@c.de9x_123-45-6789") ≠
      redactForLogging "a.1234567890123.b@c.de9x_123-45-6789" :=
  ⟨by decide, by decide, by decide⟩

/-- C8 (amended): redaction is idempotent on texts whose first redaction
leaves no detectable PII behind. -/
theorem claim_C8_idempotent_when_clean (t : String)
    (h : containsPII (redactForLogging t).data = false) :
    redactForLogging (redactForLogging t) = redactForLogging t := by
  unfold containsPII at h
  generalize redactForLogging t = u at h ⊢
  unfold redactForLogging redactPII
  by_cases he : u.data.isEmpty = true
  · rw [if_pos he]
  · rw [if_neg he]
    simp only [h, Bool.not_false, if_true]

/-- Witness for the amended C8 at `"hi"`. -/
theorem claim_C8_idempotent_when_clean_witness :
    redactForLogging (redactForLogging "hi") = redactForLogging "hi" :=
  claim_C8_idempotent_when_clean "hi" (by decide)

end CoPilot
